import Mathlib

/-!
Verification of the diffing / normalization core of a Terraform provider for a
billing API (resources: webhook endpoint, product, price, coupon).

The Go source is shallowly embedded:

* Terraform attribute values are tri-state inductives (null / unknown / value),
  mirroring the plugin framework basetypes.  A collection attribute in the
  framework also carries an element type; values read from real state or plan
  always carry the schema element type, and the embedding represents exactly
  those schema-typed values.  (The Go zero value of a collection, which has a
  nil element type and compares unequal to itself, is not representable here.)
* Go float64 fields are modelled as rationals: the source only moves float
  values around and compares them with zero, it never does float arithmetic.
* Go maps are modelled as association lists; theorems that need the Go map
  invariant assume the key list has no duplicates.
* diag.Diagnostics is a list of error diagnostics (the source only ever adds
  error-severity diagnostics and only ever tests HasError).
* The framework conversion functions called by the populate functions
  (ListValueFrom, MapValueFrom, ObjectValueFrom) are external collaborators;
  they are passed in as a Converters record so that both their normal total
  behaviour (stdConverters) and a failing typed conversion can be analysed.
  Crucially, the Go source passes diag.Diagnostics BY VALUE into
  populateModel / buildCreateParams / buildUpdateParams; a Go slice header is
  copied, so diagnostics appended inside those functions never reach the
  callers response diagnostics.  The embedding reproduces this: those
  functions return the locally updated diagnostics, and the lifecycle
  embeddings discard that component exactly as the Go callers do.
-/

/-- One diagnostic (error severity). -/
structure Diag where
  summary : String
  detail : String
deriving DecidableEq, Repr

/-- diag.Diagnostics from the plugin framework, restricted to the error
diagnostics that this code base produces. -/
abbrev Diagnostics := List Diag

/-- Diagnostics.HasError. -/
def Diagnostics.hasError (d : Diagnostics) : Bool := !d.isEmpty

/-- types.String: tri-state string attribute. -/
inductive TFString
  | null
  | unknown
  | value (s : String)
deriving DecidableEq, Repr

/-- types.Bool: tri-state bool attribute. -/
inductive TFBool
  | null
  | unknown
  | value (b : Bool)
deriving DecidableEq, Repr

/-- types.Int64: tri-state 64-bit integer attribute. -/
inductive TFInt64
  | null
  | unknown
  | value (i : Int)
deriving DecidableEq, Repr

/-- types.Float64: tri-state float attribute (floats modelled as rationals). -/
inductive TFFloat64
  | null
  | unknown
  | value (q : Rat)
deriving DecidableEq, Repr

/-- types.List with element type alpha. -/
inductive TFList (α : Type)
  | null
  | unknown
  | value (elems : List α)
deriving DecidableEq, Repr

/-- types.Map with element type alpha; entries are an association list. -/
inductive TFMap (α : Type)
  | null
  | unknown
  | value (entries : List (String × α))
deriving DecidableEq, Repr

/-- types.Object holding a model record of type alpha. -/
inductive TFObject (α : Type)
  | null
  | unknown
  | value (obj : α)
deriving DecidableEq, Repr

def TFString.isNull : TFString → Bool
  | .null => true
  | _ => false

def TFString.isUnknown : TFString → Bool
  | .unknown => true
  | _ => false

/-- types.String ValueString: zero string unless the value is known. -/
def TFString.valueString : TFString → String
  | .value s => s
  | _ => ""

/-- types.String ValueStringPointer: nil for null, address of the stored
string otherwise (an unknown stores the zero string). -/
def TFString.valueStringPointer : TFString → Option String
  | .null => none
  | .unknown => some ""
  | .value s => some s

def TFBool.isNull : TFBool → Bool
  | .null => true
  | _ => false

def TFBool.isUnknown : TFBool → Bool
  | .unknown => true
  | _ => false

def TFInt64.isNull : TFInt64 → Bool
  | .null => true
  | _ => false

def TFInt64.isUnknown : TFInt64 → Bool
  | .unknown => true
  | _ => false

def TFFloat64.isNull : TFFloat64 → Bool
  | .null => true
  | _ => false

def TFFloat64.isUnknown : TFFloat64 → Bool
  | .unknown => true
  | _ => false

def TFBool.valueBool : TFBool → Bool
  | .value b => b
  | _ => false

def TFBool.valueBoolPointer : TFBool → Option Bool
  | .null => none
  | .unknown => some false
  | .value b => some b

def TFInt64.valueInt64Pointer : TFInt64 → Option Int
  | .null => none
  | .unknown => some 0
  | .value i => some i

def TFFloat64.valueFloat64Pointer : TFFloat64 → Option Rat
  | .null => none
  | .unknown => some 0
  | .value q => some q

def TFList.isNull {α} : TFList α → Bool
  | .null => true
  | _ => false

def TFList.isUnknown {α} : TFList α → Bool
  | .unknown => true
  | _ => false

/-- Elements of a list value; null and unknown lists have no elements. -/
def TFList.elements {α} : TFList α → List α
  | .value es => es
  | _ => []

def TFMap.isNull {α} : TFMap α → Bool
  | .null => true
  | _ => false

def TFMap.isUnknown {α} : TFMap α → Bool
  | .unknown => true
  | _ => false

/-- Elements of a map value; null and unknown maps have no elements. -/
def TFMap.elements {α} : TFMap α → List (String × α)
  | .value es => es
  | _ => []

def TFObject.isNull {α} : TFObject α → Bool
  | .null => true
  | _ => false

def TFObject.isUnknown {α} : TFObject α → Bool
  | .unknown => true
  | _ => false

/-- Lookup in a Go map modelled as an association list (first match). -/
def entriesLookup {α} (l : List (String × α)) (k : String) : Option α :=
  (l.find? (fun p => p.1 == k)).map (fun p => p.2)

/-- Key list of a Go map modelled as an association list. -/
def entriesKeys {α} (l : List (String × α)) : List String := l.map (fun p => p.1)

/-- Entrywise equality of two Go maps (same keys, same values per key):
the comparison performed by the framework Equal on known maps. -/
def entriesEqual {α} [DecidableEq α] (a b : List (String × α)) : Bool :=
  a.all (fun p => entriesLookup b p.1 == some p.2) &&
    b.all (fun p => entriesLookup a p.1 == some p.2)

/-- attr.Value Equal for scalar and structurally compared attributes. -/
def TFString.equal (a b : TFString) : Bool := a == b

def TFBool.equal (a b : TFBool) : Bool := a == b

def TFInt64.equal (a b : TFInt64) : Bool := a == b

def TFFloat64.equal (a b : TFFloat64) : Bool := a == b

def TFList.equal {α} [DecidableEq α] (a b : TFList α) : Bool := a == b

def TFObject.equal {α} [DecidableEq α] (a b : TFObject α) : Bool := a == b

/-- types.Map Equal: same state, and for known maps entrywise equality. -/
def TFMap.equal {α} [DecidableEq α] : TFMap α → TFMap α → Bool
  | .null, .null => true
  | .unknown, .unknown => true
  | .value a, .value b => entriesEqual a b
  | _, _ => false

/-- Setting a key in a Go map (overwrite if present, insert otherwise). -/
def goMapSet {α} (l : List (String × α)) (k : String) (v : α) : List (String × α) :=
  if l.any (fun p => p.1 == k) then
    l.map (fun p => if p.1 == k then (k, v) else p)
  else
    l ++ [(k, v)]

/-- params.AddMetadata: allocates the metadata map on first use, then sets
the key. -/
def addMetadata (m : Option (List (String × String))) (k v : String) :
    Option (List (String × String)) :=
  some (goMapSet (m.getD []) k v)

/-- Go append on a possibly nil slice: the result is always non-nil. -/
def goAppend {α} (s : Option (List α)) (x : α) : Option (List α) :=
  some (s.getD [] ++ [x])

/-! ## Null and empty normalization helpers (utils.go) -/

/-- Float64NullIfEmpty from utils.go. -/
def Float64NullIfEmpty (input : Rat) : TFFloat64 :=
  if input == 0 then TFFloat64.null else TFFloat64.value input

/-- Int64NullIfEmpty from utils.go. -/
def Int64NullIfEmpty (input : Int) : TFInt64 :=
  if input == 0 then TFInt64.null else TFInt64.value input

/-- StringNullIfEmpty from utils.go. -/
def StringNullIfEmpty (input : String) : TFString :=
  if input == "" then TFString.null else TFString.value input

/-- ListValueNullIfEmpty from utils.go (an unknown list also has zero
elements, so it too collapses to null). -/
def ListValueNullIfEmpty {α} (input : TFList α) : TFList α :=
  if input.isNull || input.elements.length == 0 then TFList.null else input

/-- MapValueNullIfEmpty from utils.go. -/
def MapValueNullIfEmpty {α} (input : TFMap α) : TFMap α :=
  if input.isNull || input.elements.length == 0 then TFMap.null else input

/-- EmptyStringIfNull from utils.go: clear sentinel for scalar string
updates. -/
def EmptyStringIfNull (s : TFString) : Option String :=
  if s.isNull then some "" else s.valueStringPointer

/-- convertListToStringPtrs from utils.go.  The result models the Go
pointer slice: nil for a null or unknown list (and for a list the loop
never appends to), a pointer per element otherwise. -/
def convertListToStringPtrs (tflist : TFList TFString) : Option (List (Option String)) :=
  if tflist.isUnknown || tflist.isNull then
    none
  else
    tflist.elements.foldl
      (fun acc element =>
        match element with
        | TFString.null => goAppend acc none
        | e => goAppend acc (some e.valueString))
      none

/-! ## Remote objects (the stripe-go structures, fields the source reads) -/

/-- stripe.WebhookEndpoint, the fields read by populateModel. -/
structure StripeWebhookEndpoint where
  id : String := ""
  apiVersion : String := ""
  application : String := ""
  description : String := ""
  enabledEvents : List String := []
  metadata : List (String × String) := []
  secret : String := ""
  status : String := ""
  url : String := ""
deriving DecidableEq, Repr

/-- stripe.ProductPackageDimensions. -/
structure StripeProductPackageDimensions where
  height : Rat := 0
  length : Rat := 0
  weight : Rat := 0
  width : Rat := 0
deriving DecidableEq, Repr

/-- stripe.Product, the fields read by populateModel.  The DefaultPrice and
TaxCode pointers are represented by the identifier the source reads from
them; MarketingFeatures keeps the Go nil/non-nil slice distinction and holds
the Name of each feature. -/
structure StripeProduct where
  id : String := ""
  active : Bool := false
  defaultPriceID : Option String := none
  description : String := ""
  images : List String := []
  marketingFeatures : Option (List String) := none
  metadata : List (String × String) := []
  name : String := ""
  packageDimensions : Option StripeProductPackageDimensions := none
  shippable : Bool := false
  statementDescriptor : String := ""
  taxCodeID : Option String := none
  unitLabel : String := ""
  url : String := ""
deriving DecidableEq, Repr

/-- stripe.CouponCurrencyOptions. -/
structure StripeCouponCurrencyOptions where
  amountOff : Int := 0
deriving DecidableEq, Repr

/-- stripe.Coupon, the fields read by populateModel.  A nil AppliesTo
pointer and a nil AppliesTo.Products slice take the same branch in the
source, so both are represented by none. -/
structure StripeCoupon where
  id : String := ""
  amountOff : Int := 0
  appliesToProducts : Option (List String) := none
  currency : String := ""
  currencyOptions : List (String × StripeCouponCurrencyOptions) := []
  duration : String := ""
  durationInMonths : Int := 0
  maxRedemptions : Int := 0
  metadata : List (String × String) := []
  name : String := ""
  percentOff : Rat := 0
  redeemBy : Int := 0
deriving DecidableEq, Repr

/-- stripe.Price, the fields read by populateModel.  The Product pointer is
represented by the identifier the source reads from it. -/
structure StripePrice where
  id : String := ""
  active : Bool := false
  billingScheme : String := ""
  currency : String := ""
  lookupKey : String := ""
  nickname : String := ""
  productID : String := ""
  taxBehavior : String := ""
  tiersMode : String := ""
  unitAmount : Int := 0
  unitAmountDecimal : Rat := 0
deriving DecidableEq, Repr

/-! ## Resource models (the tfsdk model records) -/

/-- WebhookEndpointResourceModel.  Field defaults are the Go zero values
(null attributes). -/
structure WebhookEndpointResourceModel where
  id : TFString := TFString.null
  apiVersion : TFString := TFString.null
  application : TFString := TFString.null
  description : TFString := TFString.null
  disabled : TFBool := TFBool.null
  enabledEvents : TFList TFString := TFList.null
  metadata : TFMap TFString := TFMap.null
  secret : TFString := TFString.null
  url : TFString := TFString.null
deriving DecidableEq, Repr

/-- ProductPackageDimensionsResourceModel. -/
structure ProductPackageDimensionsResourceModel where
  height : TFFloat64 := TFFloat64.null
  length : TFFloat64 := TFFloat64.null
  weight : TFFloat64 := TFFloat64.null
  width : TFFloat64 := TFFloat64.null
deriving DecidableEq, Repr

/-- ProductResourceModel. -/
structure ProductResourceModel where
  id : TFString := TFString.null
  active : TFBool := TFBool.null
  defaultPrice : TFString := TFString.null
  description : TFString := TFString.null
  images : TFList TFString := TFList.null
  marketingFeatures : TFList TFString := TFList.null
  metadata : TFMap TFString := TFMap.null
  name : TFString := TFString.null
  packageDimensions : TFObject ProductPackageDimensionsResourceModel := TFObject.null
  shippable : TFBool := TFBool.null
  statementDescriptor : TFString := TFString.null
  taxCode : TFString := TFString.null
  unitLabel : TFString := TFString.null
  url : TFString := TFString.null
deriving DecidableEq, Repr

/-- CouponCurrencyOptionsModel. -/
structure CouponCurrencyOptionsModel where
  amountOff : TFInt64 := TFInt64.null
  topLevel : TFBool := TFBool.null
deriving DecidableEq, Repr

/-- CouponResourceModel. -/
structure CouponResourceModel where
  id : TFString := TFString.null
  appliesTo : TFList TFString := TFList.null
  currencyOptions : TFMap CouponCurrencyOptionsModel := TFMap.null
  duration : TFString := TFString.null
  durationInMonths : TFInt64 := TFInt64.null
  maxRedemptions : TFInt64 := TFInt64.null
  metadata : TFMap TFString := TFMap.null
  name : TFString := TFString.null
  percentOff : TFFloat64 := TFFloat64.null
  redeemBy : TFInt64 := TFInt64.null
deriving DecidableEq, Repr

/-- PriceCustomUnitAmount. -/
structure PriceCustomUnitAmount where
  maximum : TFInt64 := TFInt64.null
  minimum : TFInt64 := TFInt64.null
  preset : TFInt64 := TFInt64.null
deriving DecidableEq, Repr

/-- The nested tier object of the price tiers list attribute. -/
structure PriceTierModel where
  flatAmount : TFInt64 := TFInt64.null
  flatAmountDecimal : TFString := TFString.null
  unitAmount : TFInt64 := TFInt64.null
  unitAmountDecimal : TFString := TFString.null
  upTo : TFInt64 := TFInt64.null
deriving DecidableEq, Repr

/-- PriceCurrencyOptions. -/
structure PriceCurrencyOptions where
  customUnitAmount : TFObject PriceCustomUnitAmount := TFObject.null
  taxBehavior : TFString := TFString.null
  tiers : TFList PriceTierModel := TFList.null
  unitAmount : TFInt64 := TFInt64.null
  unitAmountDecimal : TFFloat64 := TFFloat64.null
  topLevel : TFBool := TFBool.null
deriving DecidableEq, Repr

/-- PriceRecurring. -/
structure PriceRecurring where
  interval : TFString := TFString.null
  aggregateUsage : TFString := TFString.null
  intervalCount : TFString := TFString.null
  meter : TFString := TFString.null
  usageType : TFString := TFString.null
deriving DecidableEq, Repr

/-- PriceTransformQuantity. -/
structure PriceTransformQuantity where
  divideBy : TFInt64 := TFInt64.null
  round : TFString := TFString.null
deriving DecidableEq, Repr

/-- PriceResourceModel. -/
structure PriceResourceModel where
  id : TFString := TFString.null
  active : TFBool := TFBool.null
  billingScheme : TFString := TFString.null
  currency : TFString := TFString.null
  currencyOptions : TFMap PriceCurrencyOptions := TFMap.null
  customUnitAmount : TFObject PriceCustomUnitAmount := TFObject.null
  lookupKey : TFString := TFString.null
  metadata : TFMap TFString := TFMap.null
  nickname : TFString := TFString.null
  product : TFString := TFString.null
  recurring : TFObject PriceRecurring := TFObject.null
  taxBehavior : TFString := TFString.null
  tiers : TFList PriceTierModel := TFList.null
  tiersMode : TFString := TFString.null
  transformQuantity : TFObject PriceTransformQuantity := TFObject.null
  unitAmount : TFInt64 := TFInt64.null
  unitAmountDecimal : TFFloat64 := TFFloat64.null
deriving DecidableEq, Repr

/-! ## External framework conversions -/

/-- The framework conversion functions the populate functions call
(types.ListValueFrom, types.MapValueFrom, types.ObjectValueFrom).  They are
external collaborators; each returns the converted value together with the
diagnostics it reports.  On failure the framework returns an unknown value
of the requested type, which is what a failing instance should return. -/
structure Converters where
  listValueFromStrings : List String → TFList TFString × Diagnostics
  mapValueFromStringMap : List (String × String) → TFMap TFString × Diagnostics
  mapValueFromCouponOptions :
    List (String × CouponCurrencyOptionsModel) →
      TFMap CouponCurrencyOptionsModel × Diagnostics
  objectValueFromPackageDimensions :
    ProductPackageDimensionsResourceModel →
      TFObject ProductPackageDimensionsResourceModel × Diagnostics

/-- The actual behaviour of the framework conversions on the well-typed Go
values this provider feeds them: total, and reporting no diagnostics. -/
def stdConverters : Converters where
  listValueFromStrings := fun xs => (TFList.value (xs.map TFString.value), [])
  mapValueFromStringMap := fun m =>
    (TFMap.value (m.map (fun p => (p.1, TFString.value p.2))), [])
  mapValueFromCouponOptions := fun m => (TFMap.value m, [])
  objectValueFromPackageDimensions := fun o => (TFObject.value o, [])

/-- Map.ElementsAs with allowUnhandled set to false: extracts the entries of
a known map; a null or unknown map reports a conversion diagnostic and
leaves the target at its zero value (the empty Go map). -/
def TFMap.elementsAs {α} : TFMap α → List (String × α) × Diagnostics
  | .value es => (es, [])
  | .null => ([], [⟨"Value Conversion Error", "unhandled null value"⟩])
  | .unknown => ([], [⟨"Value Conversion Error", "unhandled unknown value"⟩])

/-- Object.As with unhandled null and unknown not allowed: extracts the model
from a known object; a null or unknown object reports a conversion
diagnostic and leaves the target unchanged. -/
def TFObject.asModel {α} (o : TFObject α) (target : α) : α × Diagnostics :=
  match o with
  | .value a => (a, [])
  | .null => (target, [⟨"Value Conversion Error", "unhandled null value"⟩])
  | .unknown => (target, [⟨"Value Conversion Error", "unhandled unknown value"⟩])

/-! ## Change sets (the stripe-go params structures) -/

/-- stripe.WebhookEndpointParams, the fields the source can set. -/
structure WebhookEndpointParams where
  apiVersion : Option String := none
  description : Option String := none
  disabled : Option Bool := none
  enabledEvents : Option (List (Option String)) := none
  metadata : Option (List (String × String)) := none
  url : Option String := none
deriving DecidableEq, Repr

/-- stripe.ProductPackageDimensionsParams. -/
structure ProductPackageDimensionsParams where
  height : Option Rat := none
  length : Option Rat := none
  weight : Option Rat := none
  width : Option Rat := none
deriving DecidableEq, Repr

/-- stripe.ProductParams, the fields the source can set.  A marketing
feature params entry holds only its Name pointer, so the list stores those
pointers directly. -/
structure ProductParams where
  id : Option String := none
  active : Option Bool := none
  defaultPrice : Option String := none
  description : Option String := none
  images : Option (List (Option String)) := none
  marketingFeatures : Option (List (Option String)) := none
  metadata : Option (List (String × String)) := none
  name : Option String := none
  packageDimensions : Option ProductPackageDimensionsParams := none
  shippable : Option Bool := none
  statementDescriptor : Option String := none
  taxCode : Option String := none
  unitLabel : Option String := none
  url : Option String := none
deriving DecidableEq, Repr

/-- stripe.CouponCurrencyOptionsParams. -/
structure CouponCurrencyOptionsParams where
  amountOff : Option Int := none
deriving DecidableEq, Repr

/-- stripe.CouponParams, the fields the source can set.  The appliesTo
field models the AppliesTo params struct by its Products pointer slice;
expand records AddExpand calls. -/
structure CouponParams where
  id : Option String := none
  amountOff : Option Int := none
  appliesTo : Option (List (Option String)) := none
  currency : Option String := none
  currencyOptions : Option (List (String × CouponCurrencyOptionsParams)) := none
  duration : Option String := none
  durationInMonths : Option Int := none
  maxRedemptions : Option Int := none
  metadata : Option (List (String × String)) := none
  name : Option String := none
  percentOff : Option Rat := none
  redeemBy : Option Int := none
  expand : List String := []
deriving DecidableEq, Repr

/-- stripe.PriceParams.  Both price param builders in the source are stubs
that never set a field, so no field is modelled. -/
structure PriceParams where
deriving DecidableEq, Repr

/-! ## Loop bodies of the builders, as named step functions -/

/-- Loop body of the metadata create and plan loops over
WebhookEndpointParams: params.AddMetadata(k, str.ValueString()). -/
def webhookAddMetadataStep (acc : WebhookEndpointParams) (p : String × TFString) :
    WebhookEndpointParams :=
  { acc with metadata := addMetadata acc.metadata p.1 p.2.valueString }

/-- Loop body of the metadata clearing loop over WebhookEndpointParams:
state keys absent from the plan get the empty clear sentinel. -/
def webhookClearMetadataStep (planMetadata : List (String × TFString))
    (acc : WebhookEndpointParams) (p : String × TFString) : WebhookEndpointParams :=
  if (entriesLookup planMetadata p.1).isNone then
    { acc with metadata := addMetadata acc.metadata p.1 "" }
  else acc

/-- Loop body of the metadata plan loop over ProductParams. -/
def productAddMetadataStep (acc : ProductParams) (p : String × TFString) :
    ProductParams :=
  { acc with metadata := addMetadata acc.metadata p.1 p.2.valueString }

/-- Loop body of the metadata clearing loop over ProductParams. -/
def productClearMetadataStep (planMetadata : List (String × TFString))
    (acc : ProductParams) (p : String × TFString) : ProductParams :=
  if (entriesLookup planMetadata p.1).isNone then
    { acc with metadata := addMetadata acc.metadata p.1 "" }
  else acc

/-- Loop body of the marketing features loop: append a params entry holding
the element name pointer. -/
def productMarketingFeatureStep (acc : ProductParams) (s : TFString) : ProductParams :=
  { acc with
    marketingFeatures := some (acc.marketingFeatures.getD [] ++ [s.valueStringPointer]) }

/-- Loop body of the metadata plan loop over CouponParams. -/
def couponAddMetadataStep (acc : CouponParams) (p : String × TFString) : CouponParams :=
  { acc with metadata := addMetadata acc.metadata p.1 p.2.valueString }

/-- Loop body of the metadata clearing loop over CouponParams. -/
def couponClearMetadataStep (planMetadata : List (String × TFString))
    (acc : CouponParams) (p : String × TFString) : CouponParams :=
  if (entriesLookup planMetadata p.1).isNone then
    { acc with metadata := addMetadata acc.metadata p.1 "" }
  else acc

/-- Loop body of the currency options loop of buildCreateParams: a top
level entry is routed to the top level AmountOff and Currency fields, any
other entry into the per currency map. -/
def couponCreateCurrencyOptionStep (acc : CouponParams)
    (p : String × CouponCurrencyOptionsModel) : CouponParams :=
  if p.2.topLevel.valueBool then
    { acc with
      amountOff := p.2.amountOff.valueInt64Pointer
      currency := some p.1 }
  else
    { acc with
      currencyOptions := some
        (goMapSet (acc.currencyOptions.getD []) p.1
          { amountOff := p.2.amountOff.valueInt64Pointer }) }

/-- Loop body of the currency options loop of buildUpdateParams: only plan
keys absent from state are emitted. -/
def couponUpdateCurrencyOptionStep
    (stateCurrencyOptions : List (String × CouponCurrencyOptionsModel))
    (acc : CouponParams) (p : String × CouponCurrencyOptionsModel) : CouponParams :=
  if (entriesLookup stateCurrencyOptions p.1).isNone then
    { acc with
      currencyOptions := some
        (goMapSet (acc.currencyOptions.getD []) p.1
          { amountOff := p.2.amountOff.valueInt64Pointer }) }
  else acc

/-! ## Webhook endpoint resource -/

/-- WebhookEndpointResource.populateModel.  The Go function mutates the
model through a pointer and receives respDiag by value; the embedding
returns the updated model together with the locally updated diagnostics.
On a conversion error it adds a Conversion Error diagnostic to the local
copy and returns early, exactly like the source. -/
def WebhookEndpointResource.populateModel (conv : Converters)
    (model : WebhookEndpointResourceModel) (webhookEndpoint : StripeWebhookEndpoint)
    (respDiag : Diagnostics) : WebhookEndpointResourceModel × Diagnostics :=
  let model := { model with apiVersion := StringNullIfEmpty webhookEndpoint.apiVersion }
  let model := { model with application := StringNullIfEmpty webhookEndpoint.application }
  let model := { model with description := StringNullIfEmpty webhookEndpoint.description }
  let (enabledEvents, diags) := conv.listValueFromStrings webhookEndpoint.enabledEvents
  if diags.hasError then
    (model, respDiag ++ [⟨"Conversion Error", "Error converting enabledEvents"⟩])
  else
    let model := { model with enabledEvents := enabledEvents }
    let (metadata, diags2) := conv.mapValueFromStringMap webhookEndpoint.metadata
    if diags2.hasError then
      (model, respDiag ++ [⟨"Conversion Error", "Error converting metadata"⟩])
    else
      let model := { model with metadata := MapValueNullIfEmpty metadata }
      let model :=
        { model with
          disabled :=
            if webhookEndpoint.status == "disabled" then TFBool.value true
            else TFBool.value false }
      ({ model with url := TFString.value webhookEndpoint.url }, respDiag)

/-- WebhookEndpointResource.buildCreateParams. -/
def WebhookEndpointResource.buildCreateParams (plan : WebhookEndpointResourceModel) :
    WebhookEndpointParams :=
  let params : WebhookEndpointParams := {}
  let params :=
    if !plan.apiVersion.isNull then
      { params with apiVersion := plan.apiVersion.valueStringPointer }
    else params
  let params :=
    if !plan.description.isNull then
      { params with description := plan.description.valueStringPointer }
    else params
  let params :=
    if !plan.enabledEvents.isNull then
      { params with enabledEvents := convertListToStringPtrs plan.enabledEvents }
    else params
  let params :=
    if !plan.metadata.isNull then
      plan.metadata.elements.foldl webhookAddMetadataStep params
    else params
  if !plan.url.isNull then
    { params with url := plan.url.valueStringPointer }
  else params

/-- WebhookEndpointResource.buildUpdateParams. -/
def WebhookEndpointResource.buildUpdateParams
    (state plan : WebhookEndpointResourceModel) : WebhookEndpointParams :=
  let params : WebhookEndpointParams := {}
  let params :=
    if !(plan.description.equal state.description) then
      if plan.description.isNull then
        { params with description := some "" }
      else
        { params with description := plan.description.valueStringPointer }
    else params
  let params :=
    if !(plan.disabled.equal state.disabled) then
      { params with disabled := plan.disabled.valueBoolPointer }
    else params
  let params :=
    if !(plan.enabledEvents.equal state.enabledEvents) then
      { params with enabledEvents := convertListToStringPtrs plan.enabledEvents }
    else params
  let params :=
    if !(plan.metadata.equal state.metadata) then
      let planMetadata := plan.metadata.elements
      let stateMetadata := state.metadata.elements
      let params := planMetadata.foldl webhookAddMetadataStep params
      stateMetadata.foldl (webhookClearMetadataStep planMetadata) params
    else params
  if !(plan.url.equal state.url) then
    { params with url := plan.url.valueStringPointer }
  else params

/-! ## Product resource -/

/-- ProductResource.populateModel.  Fields guarded by a nil pointer check in
the source (DefaultPrice, TaxCode, MarketingFeatures) are left unchanged
when the remote pointer or slice is nil.  respDiag is received by value, so
the returned diagnostics are the local copy only. -/
def ProductResource.populateModel (conv : Converters)
    (model : ProductResourceModel) (product : StripeProduct)
    (respDiag : Diagnostics) : ProductResourceModel × Diagnostics :=
  let model := { model with active := TFBool.value product.active }
  let model :=
    match product.defaultPriceID with
    | some priceId => { model with defaultPrice := TFString.value priceId }
    | none => model
  let model := { model with description := StringNullIfEmpty product.description }
  let (images, diags) := conv.listValueFromStrings product.images
  let respDiag := if diags.hasError then respDiag ++ diags else respDiag
  let model := { model with images := ListValueNullIfEmpty images }
  let (model, respDiag) :=
    match product.marketingFeatures with
    | some featureNames =>
      let (m, diags) := conv.listValueFromStrings featureNames
      let respDiag := if diags.hasError then respDiag ++ diags else respDiag
      ({ model with marketingFeatures := ListValueNullIfEmpty m }, respDiag)
    | none => (model, respDiag)
  let (metadata, diags2) := conv.mapValueFromStringMap product.metadata
  let respDiag := if diags2.hasError then respDiag ++ diags2 else respDiag
  let model := { model with metadata := MapValueNullIfEmpty metadata }
  let model := { model with name := TFString.value product.name }
  let (model, respDiag) :=
    match product.packageDimensions with
    | some pd =>
      if pd.height != 0 && pd.length != 0 && pd.weight != 0 && pd.width != 0 then
        let (p, diags3) := conv.objectValueFromPackageDimensions
          { height := TFFloat64.value pd.height
            length := TFFloat64.value pd.length
            weight := TFFloat64.value pd.weight
            width := TFFloat64.value pd.width }
        let respDiag := if diags3.hasError then respDiag ++ diags3 else respDiag
        ({ model with packageDimensions := p }, respDiag)
      else
        ({ model with packageDimensions := TFObject.null }, respDiag)
    | none => ({ model with packageDimensions := TFObject.null }, respDiag)
  let model := { model with shippable := TFBool.value product.shippable }
  let model :=
    { model with statementDescriptor := StringNullIfEmpty product.statementDescriptor }
  let model :=
    match product.taxCodeID with
    | some taxId => { model with taxCode := TFString.value taxId }
    | none => model
  let model := { model with unitLabel := StringNullIfEmpty product.unitLabel }
  ({ model with url := StringNullIfEmpty product.url }, respDiag)

/-- ProductResource.buildCreateParams.  respDiag is received by value; the
returned diagnostics are the local copy. -/
def ProductResource.buildCreateParams (plan : ProductResourceModel)
    (respDiag : Diagnostics) : ProductParams × Diagnostics :=
  let params : ProductParams := {}
  let params :=
    if !plan.id.isUnknown then { params with id := plan.id.valueStringPointer } else params
  let params :=
    if !plan.active.isUnknown then
      { params with active := plan.active.valueBoolPointer }
    else params
  let params :=
    if !plan.defaultPrice.isUnknown then
      { params with defaultPrice := plan.defaultPrice.valueStringPointer }
    else params
  let params :=
    if !plan.description.isUnknown then
      { params with description := plan.description.valueStringPointer }
    else params
  let params :=
    if !plan.images.isUnknown then
      { params with images := convertListToStringPtrs plan.images }
    else params
  let params :=
    if !plan.marketingFeatures.isUnknown && !plan.marketingFeatures.isNull then
      let params := { params with marketingFeatures := some [] }
      plan.marketingFeatures.elements.foldl productMarketingFeatureStep params
    else params
  let params :=
    if !plan.metadata.isNull then
      plan.metadata.elements.foldl productAddMetadataStep params
    else params
  let params :=
    if !plan.name.isUnknown then { params with name := plan.name.valueStringPointer } else params
  let (params, respDiag) :=
    if !plan.packageDimensions.isUnknown && !plan.packageDimensions.isNull then
      let (packageDimensions, diags) :=
        plan.packageDimensions.asModel ({} : ProductPackageDimensionsResourceModel)
      let respDiag := if diags.hasError then respDiag ++ diags else respDiag
      ({ params with
          packageDimensions := some
            { height := packageDimensions.height.valueFloat64Pointer
              length := packageDimensions.length.valueFloat64Pointer
              weight := packageDimensions.weight.valueFloat64Pointer
              width := packageDimensions.width.valueFloat64Pointer } }, respDiag)
    else (params, respDiag)
  let params :=
    if !plan.shippable.isUnknown then
      { params with shippable := plan.shippable.valueBoolPointer }
    else params
  let params :=
    if !plan.statementDescriptor.isUnknown then
      { params with statementDescriptor := plan.statementDescriptor.valueStringPointer }
    else params
  let params :=
    if !plan.taxCode.isUnknown then
      { params with taxCode := plan.taxCode.valueStringPointer }
    else params
  let params :=
    if !plan.unitLabel.isUnknown then
      { params with unitLabel := plan.unitLabel.valueStringPointer }
    else params
  let params :=
    if !plan.url.isUnknown then { params with url := plan.url.valueStringPointer } else params
  (params, respDiag)

/-- ProductResource.buildUpdateParams.  respDiag is received by value; the
returned diagnostics are the local copy. -/
def ProductResource.buildUpdateParams (state plan : ProductResourceModel)
    (respDiag : Diagnostics) : ProductParams × Diagnostics :=
  let params : ProductParams := {}
  let params :=
    if !(plan.active.equal state.active) then
      { params with active := plan.active.valueBoolPointer }
    else params
  let params :=
    if !(plan.defaultPrice.equal state.defaultPrice) then
      { params with defaultPrice := EmptyStringIfNull plan.defaultPrice }
    else params
  let params :=
    if !(plan.description.equal state.description) then
      { params with description := EmptyStringIfNull plan.description }
    else params
  let params :=
    if !(plan.images.equal state.images) then
      { params with images := convertListToStringPtrs plan.images }
    else params
  let params :=
    if !(plan.marketingFeatures.equal state.marketingFeatures) then
      let params := { params with marketingFeatures := some [] }
      plan.marketingFeatures.elements.foldl productMarketingFeatureStep params
    else params
  let params :=
    if !(plan.metadata.equal state.metadata) then
      let planMetadata := plan.metadata.elements
      let stateMetadata := state.metadata.elements
      let params := planMetadata.foldl productAddMetadataStep params
      stateMetadata.foldl (productClearMetadataStep planMetadata) params
    else params
  let params :=
    if !(plan.name.equal state.name) then
      { params with name := plan.name.valueStringPointer }
    else params
  let (params, respDiag) :=
    if !(plan.packageDimensions.equal state.packageDimensions) then
      if plan.packageDimensions.isNull then
        ({ params with
            packageDimensions := some
              { height := some 0, length := some 0, weight := some 0, width := some 0 } },
          respDiag)
      else
        let (packageDimensions, diags) :=
          plan.packageDimensions.asModel ({} : ProductPackageDimensionsResourceModel)
        let respDiag := if diags.hasError then respDiag ++ diags else respDiag
        ({ params with
            packageDimensions := some
              { height := packageDimensions.height.valueFloat64Pointer
                length := packageDimensions.length.valueFloat64Pointer
                weight := packageDimensions.weight.valueFloat64Pointer
                width := packageDimensions.width.valueFloat64Pointer } }, respDiag)
    else (params, respDiag)
  let params :=
    if !(plan.shippable.equal state.shippable) then
      { params with shippable := plan.shippable.valueBoolPointer }
    else params
  let params :=
    if !(plan.statementDescriptor.equal state.statementDescriptor) then
      { params with statementDescriptor := EmptyStringIfNull plan.statementDescriptor }
    else params
  let params :=
    if !(plan.taxCode.equal state.taxCode) then
      { params with taxCode := EmptyStringIfNull plan.taxCode }
    else params
  let params :=
    if !(plan.unitLabel.equal state.unitLabel) then
      { params with unitLabel := EmptyStringIfNull plan.unitLabel }
    else params
  let params :=
    if !(plan.url.equal state.url) then
      { params with url := EmptyStringIfNull plan.url }
    else params
  (params, respDiag)

/-! ## Coupon resource -/

/-- CouponResource.populateModel.  respDiag is received by value; the
returned diagnostics are the local copy only. -/
def CouponResource.populateModel (conv : Converters)
    (model : CouponResourceModel) (coupon : StripeCoupon)
    (respDiag : Diagnostics) : CouponResourceModel × Diagnostics :=
  let (model, respDiag) :=
    match coupon.appliesToProducts with
    | some products =>
      let (appliesTo, diags) := conv.listValueFromStrings products
      let respDiag := if diags.hasError then respDiag ++ diags else respDiag
      ({ model with appliesTo := ListValueNullIfEmpty appliesTo }, respDiag)
    | none => ({ model with appliesTo := TFList.null }, respDiag)
  let currencyOptions := coupon.currencyOptions.map (fun p =>
    (p.1,
      { amountOff := Int64NullIfEmpty p.2.amountOff
        topLevel :=
          if coupon.currency == p.1 then TFBool.value true else TFBool.value false
        : CouponCurrencyOptionsModel }))
  let (t, diags) := conv.mapValueFromCouponOptions currencyOptions
  let respDiag := if diags.hasError then respDiag ++ diags else respDiag
  let model := { model with currencyOptions := MapValueNullIfEmpty t }
  let model := { model with duration := StringNullIfEmpty coupon.duration }
  let model := { model with durationInMonths := Int64NullIfEmpty coupon.durationInMonths }
  let model := { model with maxRedemptions := Int64NullIfEmpty coupon.maxRedemptions }
  let (metadata, diags2) := conv.mapValueFromStringMap coupon.metadata
  let respDiag := if diags2.hasError then respDiag ++ diags2 else respDiag
  let model := { model with metadata := MapValueNullIfEmpty metadata }
  let model := { model with name := StringNullIfEmpty coupon.name }
  let model := { model with percentOff := Float64NullIfEmpty coupon.percentOff }
  ({ model with redeemBy := Int64NullIfEmpty coupon.redeemBy }, respDiag)

/-- CouponResource.buildCreateParams.  respDiag is received by value; the
returned diagnostics are the local copy. -/
def CouponResource.buildCreateParams (data : CouponResourceModel)
    (respDiag : Diagnostics) : CouponParams × Diagnostics :=
  let params : CouponParams := {}
  let params :=
    if !data.id.isNull && !data.id.isUnknown then
      { params with id := data.id.valueStringPointer }
    else params
  let params :=
    if !data.appliesTo.isUnknown && !data.appliesTo.isNull then
      { params with
        appliesTo := some (data.appliesTo.elements.map (fun s => s.valueStringPointer)) }
    else params
  let (params, respDiag) :=
    if !data.currencyOptions.isUnknown && !data.currencyOptions.isNull then
      let params := { params with currencyOptions := some [] }
      let (currencyOptions, diags) := data.currencyOptions.elementsAs
      let respDiag := if diags.hasError then respDiag ++ diags else respDiag
      let params := currencyOptions.foldl couponCreateCurrencyOptionStep params
      (params, respDiag)
    else (params, respDiag)
  let params :=
    if !data.duration.isUnknown then
      { params with duration := data.duration.valueStringPointer }
    else params
  let params :=
    if !data.durationInMonths.isUnknown then
      { params with durationInMonths := data.durationInMonths.valueInt64Pointer }
    else params
  let params :=
    if !data.metadata.isUnknown then
      data.metadata.elements.foldl couponAddMetadataStep params
    else params
  let params :=
    if !data.maxRedemptions.isUnknown then
      { params with maxRedemptions := data.maxRedemptions.valueInt64Pointer }
    else params
  let params :=
    if !data.name.isUnknown then { params with name := data.name.valueStringPointer } else params
  let params :=
    if !data.percentOff.isUnknown then
      { params with percentOff := data.percentOff.valueFloat64Pointer }
    else params
  let params :=
    if !data.redeemBy.isUnknown then
      { params with redeemBy := data.redeemBy.valueInt64Pointer }
    else params
  (params, respDiag)

/-- CouponResource.buildUpdateParams.  respDiag is received by value; the
returned diagnostics are the local copy. -/
def CouponResource.buildUpdateParams (state plan : CouponResourceModel)
    (respDiag : Diagnostics) : CouponParams × Diagnostics :=
  let params : CouponParams := {}
  let (params, respDiag) :=
    if !(plan.currencyOptions.equal state.currencyOptions) then
      let params := { params with currencyOptions := some [] }
      let (stateCurrencyOptions, diags) := state.currencyOptions.elementsAs
      let respDiag := if diags.hasError then respDiag ++ diags else respDiag
      let (planCurrencyOptions, diags2) := plan.currencyOptions.elementsAs
      let respDiag := if diags2.hasError then respDiag ++ diags2 else respDiag
      let params :=
        planCurrencyOptions.foldl
          (couponUpdateCurrencyOptionStep stateCurrencyOptions) params
      (params, respDiag)
    else (params, respDiag)
  let params :=
    if !(plan.metadata.equal state.metadata) then
      let planMetadata := plan.metadata.elements
      let stateMetadata := state.metadata.elements
      let params := planMetadata.foldl couponAddMetadataStep params
      stateMetadata.foldl (couponClearMetadataStep planMetadata) params
    else params
  let params :=
    if !(plan.name.equal state.name) then
      { params with name := EmptyStringIfNull plan.name }
    else params
  (params, respDiag)

/-- params.AddExpand. -/
def CouponParams.addExpand (params : CouponParams) (f : String) : CouponParams :=
  { params with expand := params.expand ++ [f] }

/-- The response of a Create invocation: the final response diagnostics and
the state passed to resp.State.Set, if the invocation reached it. -/
structure CouponCreateResponse where
  diagnostics : Diagnostics
  savedState : Option CouponResourceModel
deriving DecidableEq, Repr

/-- CouponResource.Create.  planGet models req.Plan.Get (the read plan and
the diagnostics it reports); clientNew models the remote create call.
The source passes resp.Diagnostics by value into buildCreateParams and
populateModel, so the diagnostics those functions append are discarded
here, exactly as the Go slice copy discards them; resp.State.Set is then
reached with the populated model regardless of conversion errors. -/
def CouponResource.Create (conv : Converters)
    (planGet : CouponResourceModel × Diagnostics)
    (clientNew : CouponParams → Except String StripeCoupon) :
    CouponCreateResponse :=
  let respDiagnostics := planGet.2
  if respDiagnostics.hasError then
    { diagnostics := respDiagnostics, savedState := none }
  else
    let plan := planGet.1
    let params := (CouponResource.buildCreateParams plan respDiagnostics).1
    let params := params.addExpand "currency_options"
    match clientNew params with
    | .error err =>
      { diagnostics :=
          respDiagnostics ++
            [⟨"Client Error", "Unable to create webhook endpoint, got error: " ++ err⟩]
        savedState := none }
    | .ok coupon =>
      let plan := { plan with id := TFString.value coupon.id }
      let plan := (CouponResource.populateModel conv plan coupon respDiagnostics).1
      { diagnostics := respDiagnostics, savedState := some plan }

/-! ## Price resource -/

/-- PriceResource.populateModel.  Every scalar is written with a concrete
constructor (no null normalization); Tiers is assigned the Go zero value of
types.List, whose state is null. -/
def PriceResource.populateModel (model : PriceResourceModel) (price : StripePrice) :
    PriceResourceModel :=
  { model with
    active := TFBool.value price.active
    billingScheme := TFString.value price.billingScheme
    currency := TFString.value price.currency
    lookupKey := TFString.value price.lookupKey
    nickname := TFString.value price.nickname
    product := TFString.value price.productID
    taxBehavior := TFString.value price.taxBehavior
    tiers := TFList.null
    tiersMode := TFString.value price.tiersMode
    unitAmount := TFInt64.value price.unitAmount
    unitAmountDecimal := TFFloat64.value price.unitAmountDecimal }

/-- PriceResource.buildCreateParams: a stub returning the empty params. -/
def PriceResource.buildCreateParams (plan : PriceResourceModel) : PriceParams := {}

/-- PriceResource.buildUpdateParams: a stub returning the empty params. -/
def PriceResource.buildUpdateParams (state plan : PriceResourceModel) : PriceParams := {}

/-- The response of a Delete invocation: the final diagnostics and the list
of identifiers for which the remote delete operation was invoked. -/
structure DeleteResponse where
  diagnostics : Diagnostics
  clientDeleteCalls : List String
deriving DecidableEq, Repr

/-- PriceResource.Delete.  stateGet models req.State.Get; clientDel models
the remote delete operation of the API client, which the source never
calls: it only adds the fixed Client Error diagnostic. -/
def PriceResource.Delete (stateGet : PriceResourceModel × Diagnostics)
    (clientDel : String → Except String Unit) : DeleteResponse :=
  let respDiagnostics := stateGet.2
  if respDiagnostics.hasError then
    { diagnostics := respDiagnostics, clientDeleteCalls := [] }
  else
    { diagnostics :=
        respDiagnostics ++
          [⟨"Client Error",
            "Stripe API does not support deleting prices. Please archive the price instead."⟩]
      clientDeleteCalls := [] }

/-- CouponResource.Delete, for contrast: it does invoke the remote delete
operation with the state identifier. -/
def CouponResource.Delete (stateGet : CouponResourceModel × Diagnostics)
    (clientDel : String → Except String Unit) : DeleteResponse :=
  let respDiagnostics := stateGet.2
  if respDiagnostics.hasError then
    { diagnostics := respDiagnostics, clientDeleteCalls := [] }
  else
    let state := stateGet.1
    let callId := state.id.valueString
    match clientDel callId with
    | .ok _ => { diagnostics := respDiagnostics, clientDeleteCalls := [callId] }
    | .error err =>
      { diagnostics :=
          respDiagnostics ++
            [⟨"Client Error", "Unable to delete webhook endpoint, got error: " ++ err⟩]
        clientDeleteCalls := [callId] }

/-! ## Custom bool plan modifier -/

/-- The response of PlanModifyBool: the attribute diagnostics added and the
resulting planned value (initialized by the framework to the request value;
the modifier never writes it). -/
structure BoolPlanModifyResponse where
  diagnostics : Diagnostics
  planValue : TFBool
deriving DecidableEq, Repr

/-- disallowOnCreateOnValueModifier.PlanModifyBool.  stateRawIsNull models
req.State.Raw.IsNull, which is true exactly when the resource has no prior
state, that is during a create. -/
def disallowOnCreateOnValueModifier.PlanModifyBool (value : Bool)
    (stateRawIsNull : Bool) (planValue : TFBool) : BoolPlanModifyResponse :=
  if stateRawIsNull && planValue.equal (TFBool.value value) then
    { diagnostics :=
        [⟨"Client Error",
          "Cannot create resource with attribute set to " ++ (if value then "true" else "false")⟩]
      planValue := planValue }
  else
    { diagnostics := [], planValue := planValue }

/-! ## General lemmas about the embedding primitives -/

/-- A projection a fold step never writes is invariant under the fold. -/
theorem foldl_proj_invariant {σ α γ : Type _} (proj : σ → γ) (step : σ → α → σ)
    (h : ∀ s a, proj (step s a) = proj s) (l : List α) (s : σ) :
    proj (List.foldl step s l) = proj s := by
  induction l generalizing s with
  | nil => rfl
  | cons a t ih => rw [List.foldl_cons, ih, h]

/-- Setting a fresh key in a Go map appends the entry. -/
theorem goMapSet_not_mem {α} (l : List (String × α)) (k : String) (v : α)
    (h : k ∉ entriesKeys l) : goMapSet l k v = l ++ [(k, v)] := by
  unfold goMapSet
  rw [if_neg]
  simp only [List.any_eq_true, not_exists, not_and, Bool.not_eq_true]
  intro p hp
  rw [Bool.eq_false_iff]
  intro hk
  have hk' : p.1 = k := by simpa using hk
  exact h (by simpa [entriesKeys, ← hk'] using List.mem_map_of_mem Prod.fst hp)

/-- A fold whose step conditionally inserts a fresh key into a map field
appends exactly the entries of the selected elements, in order. -/
theorem foldl_map_field_getD {σ α β : Type _} (mp : σ → Option (List (String × β)))
    (step : σ → α → σ) (c : α → Bool) (key : α → String) (f : α → β)
    (hstep : ∀ s a, mp (step s a) =
      if c a then some (goMapSet ((mp s).getD []) (key a) (f a)) else mp s)
    (l : List α) (s : σ)
    (hkeys : ∀ a ∈ l, c a = true → key a ∉ entriesKeys ((mp s).getD []))
    (hnd : ((l.filter c).map key).Nodup) :
    (mp (List.foldl step s l)).getD [] =
      (mp s).getD [] ++ (l.filter c).map (fun a => (key a, f a)) := by
  induction l generalizing s with
  | nil => simp
  | cons a t ih =>
    rw [List.foldl_cons]
    by_cases hc : c a = true
    · have hfresh : key a ∉ entriesKeys ((mp s).getD []) :=
        hkeys a (List.mem_cons_self a t) hc
      have hstepa : mp (step s a) = some ((mp s).getD [] ++ [(key a, f a)]) := by
        rw [hstep, if_pos hc, goMapSet_not_mem _ _ _ hfresh]
      have hndt : ((t.filter c).map key).Nodup := by
        have : ((a :: t).filter c) = a :: t.filter c := by rw [List.filter_cons_of_pos hc]
        rw [this, List.map_cons] at hnd
        exact hnd.of_cons
      have hka : key a ∉ (t.filter c).map key := by
        have : ((a :: t).filter c) = a :: t.filter c := by rw [List.filter_cons_of_pos hc]
        rw [this, List.map_cons] at hnd
        exact (List.nodup_cons.mp hnd).1
      have hkeyst : ∀ b ∈ t, c b = true → key b ∉ entriesKeys ((mp (step s a)).getD []) := by
        intro b hb hcb
        rw [hstepa]
        simp only [Option.getD_some, entriesKeys, List.map_append, List.mem_append]
        rintro (hmem | hmem)
        · exact hkeys b (List.mem_cons_of_mem a hb) hcb (by simpa [entriesKeys] using hmem)
        · simp only [List.map_cons, List.map_nil, List.mem_singleton] at hmem
          exact hka (by
            rw [← hmem]
            exact List.mem_map_of_mem key (List.mem_filter.mpr ⟨hb, hcb⟩))
      have := ih (step s a) hkeyst hndt
      rw [this, hstepa]
      simp [List.filter_cons_of_pos hc]
    · have hc' : c a = false := by simpa using hc
      have hstepa : mp (step s a) = mp s := by rw [hstep, if_neg (by simp [hc'])]
      have hkeyst : ∀ b ∈ t, c b = true → key b ∉ entriesKeys ((mp (step s a)).getD []) := by
        intro b hb hcb
        rw [hstepa]
        exact hkeys b (List.mem_cons_of_mem a hb) hcb
      have hndt : ((t.filter c).map key).Nodup := by
        rwa [List.filter_cons_of_neg (by simp [hc'])] at hnd
      have := ih (step s a) hkeyst hndt
      rw [this, hstepa, List.filter_cons_of_neg (by simp [hc'])]

/-- The map field of such a fold is allocated as soon as it was allocated
before or any element is selected. -/
theorem foldl_map_field_isSome {σ α β : Type _} (mp : σ → Option (List (String × β)))
    (step : σ → α → σ) (c : α → Bool) (key : α → String) (f : α → β)
    (hstep : ∀ s a, mp (step s a) =
      if c a then some (goMapSet ((mp s).getD []) (key a) (f a)) else mp s)
    (l : List α) (s : σ) :
    (mp (List.foldl step s l)).isSome = ((mp s).isSome || l.any c) := by
  induction l generalizing s with
  | nil => simp
  | cons a t ih =>
    rw [List.foldl_cons, ih]
    by_cases hc : c a = true
    · rw [hstep, if_pos hc]
      simp [hc]
    · have hc' : c a = false := by simpa using hc
      rw [hstep, if_neg (by simp [hc'])]
      simp [hc']

/-- Combined form: starting from an allocated map, the fold returns exactly
the original entries followed by the selected ones. -/
theorem foldl_map_field_some {σ α β : Type _} (mp : σ → Option (List (String × β)))
    (step : σ → α → σ) (c : α → Bool) (key : α → String) (f : α → β)
    (hstep : ∀ s a, mp (step s a) =
      if c a then some (goMapSet ((mp s).getD []) (key a) (f a)) else mp s)
    (l : List α) (s : σ) (m0 : List (String × β)) (hs : mp s = some m0)
    (hkeys : ∀ a ∈ l, c a = true → key a ∉ entriesKeys m0)
    (hnd : ((l.filter c).map key).Nodup) :
    mp (List.foldl step s l) = some (m0 ++ (l.filter c).map (fun a => (key a, f a))) := by
  have h1 := foldl_map_field_getD mp step c key f hstep l s
    (by intro a ha hc; rw [hs]; exact hkeys a ha hc) hnd
  have h2 := foldl_map_field_isSome mp step c key f hstep l s
  rw [hs] at h1 h2
  simp only [Option.getD_some, Option.isSome_some, Bool.true_or] at h1 h2
  cases hmp : mp (List.foldl step s l) with
  | none => rw [hmp] at h2; simp at h2
  | some x => rw [hmp] at h1; simp only [Option.getD_some] at h1; rw [h1]

/-- A fold whose step never selects any element leaves a projection that is
only written on selection untouched. -/
theorem foldl_proj_filter_nil {σ α γ : Type _} (proj : σ → γ) (step : σ → α → σ)
    (c : α → Bool) (g : α → γ)
    (hstep : ∀ s a, proj (step s a) = if c a then g a else proj s)
    (l : List α) (s : σ) (h : l.filter c = []) :
    proj (List.foldl step s l) = proj s := by
  induction l generalizing s with
  | nil => rfl
  | cons a t ih =>
    by_cases hc : c a = true
    · rw [List.filter_cons_of_pos hc] at h; exact absurd h (by simp)
    · have hc' : c a = false := by simpa using hc
      rw [List.filter_cons_of_neg (by simp [hc'])] at h
      rw [List.foldl_cons, ih (step s a) h, hstep, if_neg (by simp [hc'])]

/-- If exactly one element of the list is selected, a projection written on
selection ends up holding the value of that element. -/
theorem foldl_proj_single {σ α γ : Type _} (proj : σ → γ) (step : σ → α → σ)
    (c : α → Bool) (g : α → γ)
    (hstep : ∀ s a, proj (step s a) = if c a then g a else proj s)
    (l : List α) (s : σ) (a0 : α) (h : l.filter c = [a0]) :
    proj (List.foldl step s l) = g a0 := by
  induction l generalizing s with
  | nil => simp at h
  | cons a t ih =>
    by_cases hc : c a = true
    · rw [List.filter_cons_of_pos hc] at h
      have ha : a = a0 := by simpa using List.head_eq_of_cons_eq h
      have ht : t.filter c = [] := by simpa using List.tail_eq_of_cons_eq h
      rw [List.foldl_cons,
        foldl_proj_filter_nil proj step c g hstep t (step s a) ht,
        hstep, if_pos hc, ha]
    · have hc' : c a = false := by simpa using hc
      rw [List.filter_cons_of_neg (by simp [hc'])] at h
      rw [List.foldl_cons, ih (step s a) h]

/-- Reflexivity of the scalar Equal comparisons. -/
theorem tfStringEqual_self (a : TFString) : a.equal a = true := by
  simp [TFString.equal]

theorem tfBoolEqual_self (a : TFBool) : a.equal a = true := by
  simp [TFBool.equal]

theorem tfInt64Equal_self (a : TFInt64) : a.equal a = true := by
  simp [TFInt64.equal]

theorem tfFloat64Equal_self (a : TFFloat64) : a.equal a = true := by
  simp [TFFloat64.equal]

theorem tfListEqual_self {α} [DecidableEq α] (a : TFList α) : a.equal a = true := by
  simp [TFList.equal]

theorem tfObjectEqual_self {α} [DecidableEq α] (a : TFObject α) : a.equal a = true := by
  simp [TFObject.equal]

/-- A map attribute representable as a Go map: known entries have pairwise
distinct keys. -/
def TFMap.wf {α} : TFMap α → Prop
  | .value es => (entriesKeys es).Nodup
  | _ => True

/-- In a duplicate-free association list, looking up the key of a member
entry finds that entry. -/
theorem entriesLookup_self {α} (l : List (String × α)) (h : (entriesKeys l).Nodup) :
    ∀ p ∈ l, entriesLookup l p.1 = some p.2 := by
  induction l with
  | nil => intro p hp; simp at hp
  | cons q t ih =>
    intro p hp
    have h' : (q.1 :: List.map (fun p => p.1) t).Nodup := by
      rw [entriesKeys, List.map_cons] at h
      exact h
    have hq : q.1 ∉ List.map (fun p => p.1) t := (List.nodup_cons.mp h').1
    have ht : (entriesKeys t).Nodup := (List.nodup_cons.mp h').2
    rcases List.mem_cons.mp hp with hpq | hpt
    · subst hpq
      simp [entriesLookup]
    · have hne : (q.1 == p.1) = false := by
        rw [Bool.eq_false_iff]
        intro hk
        have hqp : q.1 = p.1 := by simpa using hk
        exact hq (by
          rw [hqp]
          exact List.mem_map_of_mem (fun p => p.1) hpt)
      simpa [entriesLookup, List.find?, hne] using ih ht p hpt

/-- Entrywise map equality is reflexive on duplicate-free entry lists. -/
theorem entriesEqual_self {α} [DecidableEq α] (l : List (String × α))
    (h : (entriesKeys l).Nodup) : entriesEqual l l = true := by
  unfold entriesEqual
  rw [Bool.and_self]
  rw [List.all_eq_true]
  intro p hp
  rw [beq_iff_eq]
  exact entriesLookup_self l h p hp

/-- The framework map Equal is reflexive on representable map values. -/
theorem tfMapEqual_self {α} [DecidableEq α] (m : TFMap α) (h : m.wf) :
    m.equal m = true := by
  cases m with
  | null => rfl
  | unknown => rfl
  | value es => exact entriesEqual_self es h

/-! ## Concrete inputs used by counterexamples and failing runs -/

/-- A remote price whose lookup key, nickname, unit amount and decimal unit
amount are the zero values of their types. -/
def c1Price : StripePrice :=
  { id := "price_1", active := true, billingScheme := "per_unit", currency := "usd",
    productID := "prod_1", taxBehavior := "unspecified" }

/-- A remote product whose name is the zero string. -/
def c1Product : StripeProduct := { id := "prod_1" }

/-- Converters in which the typed conversion of a nonempty currency options
map fails, as the spec contemplates for a malformed nested structure: the
conversion reports an error diagnostic and yields an unknown map. -/
def c2BadConverters : Converters :=
  { stdConverters with
    mapValueFromCouponOptions := fun entries =>
      if entries.isEmpty then (TFMap.value [], [])
      else (TFMap.unknown, [⟨"Value Conversion Error", "malformed currency options entry"⟩]) }

/-- A remote coupon carrying one currency option, so that the failing
conversion above is exercised during populate. -/
def c2Coupon : StripeCoupon :=
  { id := "co_1", currency := "gbp",
    currencyOptions := [("gbp", { amountOff := 500 })], duration := "once" }

/-- A remote create call that succeeds and returns the coupon above. -/
def c2ClientNew : CouponParams → Except String StripeCoupon :=
  fun _ => Except.ok c2Coupon

/-- C1 counterexample: the Price populate maps the zero-valued remote
lookup_key, nickname, unit_amount and unit_amount_decimal to concrete zero
values, not Null, and the Product populate maps the zero-valued remote name
to a concrete empty string, not Null — refuting the claimed universal
null-normalization at this concrete input. -/
theorem populate_zero_scalar_not_null_counterexample :
    (PriceResource.populateModel {} c1Price).lookupKey = TFString.value "" ∧
    (PriceResource.populateModel {} c1Price).lookupKey ≠ TFString.null ∧
    (PriceResource.populateModel {} c1Price).nickname = TFString.value "" ∧
    (PriceResource.populateModel {} c1Price).unitAmount = TFInt64.value 0 ∧
    (PriceResource.populateModel {} c1Price).unitAmount ≠ TFInt64.null ∧
    (PriceResource.populateModel {} c1Price).unitAmountDecimal = TFFloat64.value 0 ∧
    (ProductResource.populateModel stdConverters {} c1Product []).1.name = TFString.value "" ∧
    (ProductResource.populateModel stdConverters {} c1Product []).1.name ≠ TFString.null := by
  refine ⟨rfl, by decide, rfl, rfl, by decide, rfl, rfl, by decide⟩

/-- C9: a Price Delete invocation with readable state adds exactly the fixed
user-facing error saying prices cannot be deleted, and performs no remote
delete call. -/
theorem priceDelete_error_and_no_client_call
    (stateGet : PriceResourceModel × Diagnostics)
    (clientDel : String → Except String Unit)
    (h : stateGet.2.hasError = false) :
    (PriceResource.Delete stateGet clientDel).diagnostics =
      stateGet.2 ++
        [⟨"Client Error",
          "Stripe API does not support deleting prices. Please archive the price instead."⟩] ∧
    (PriceResource.Delete stateGet clientDel).clientDeleteCalls = [] := by
  unfold PriceResource.Delete
  simp [h]

/-- C9 witness: the theorem applied to an empty readable state. -/
theorem priceDelete_error_and_no_client_call_witness :
    (PriceResource.Delete ({}, []) (fun _ => Except.ok ())).diagnostics =
      [⟨"Client Error",
        "Stripe API does not support deleting prices. Please archive the price instead."⟩] ∧
    (PriceResource.Delete ({}, []) (fun _ => Except.ok ())).clientDeleteCalls = [] := by
  have h := priceDelete_error_and_no_client_call ({}, []) (fun _ => Except.ok ()) rfl
  simpa using h

/-- C10: the DisallowOnCreateOnValue true plan modifier adds a diagnostic
exactly when the prior state is null (a create) and the planned value is the
concrete true; in every other case it adds nothing, and it never changes the
planned value. -/
theorem disallowOnCreateOnValue_exact (stateRawIsNull : Bool) (planValue : TFBool) :
    ((disallowOnCreateOnValueModifier.PlanModifyBool true stateRawIsNull planValue).diagnostics
        ≠ [] ↔ (stateRawIsNull = true ∧ planValue = TFBool.value true)) ∧
    (disallowOnCreateOnValueModifier.PlanModifyBool true stateRawIsNull planValue).planValue
      = planValue := by
  unfold disallowOnCreateOnValueModifier.PlanModifyBool
  constructor
  · constructor
    · intro h
      by_cases hs : (stateRawIsNull && planValue.equal (TFBool.value true)) = true
      · rcases Bool.and_eq_true_iff.mp hs with ⟨h1, h2⟩
        exact ⟨h1, by simpa [TFBool.equal] using h2⟩
      · rw [if_neg hs] at h
        simp at h
    · rintro ⟨h1, h2⟩
      rw [if_pos (by simp [h1, h2, TFBool.equal])]
      simp
  · by_cases hs : (stateRawIsNull && planValue.equal (TFBool.value true)) = true
    · rw [if_pos hs]
    · rw [if_neg hs]

/-- C2 evidence: with a converter that fails on the currency options of the
returned coupon, populateModel does report a conversion error in its local
diagnostics, yet the Create invocation finishes with empty response
diagnostics and still saves the populated state — because the Go source
passes resp.Diagnostics by value, so the appended error is lost and nothing
stops resp.State.Set. -/
theorem couponCreate_drops_populate_conversion_error :
    (CouponResource.populateModel c2BadConverters {} c2Coupon []).2.hasError = true ∧
    (CouponResource.Create c2BadConverters ({}, []) c2ClientNew).diagnostics = [] ∧
    (CouponResource.Create c2BadConverters ({}, []) c2ClientNew).savedState.isSome = true := by
  refine ⟨by decide, by decide, by decide⟩

/-- C1 amended: Populate maps a zero-valued remote scalar to Null exactly on
the fields routed through the NullIfEmpty helpers — webhook endpoint
api_version, application and description; product description,
statement_descriptor, unit_label and url; the coupon scalars — with booleans
always concrete; but the Price populate of lookup_key, nickname, unit_amount
and unit_amount_decimal and the Product populate of name always produce
concrete values, even for the zero value. -/
theorem populate_null_normalization_amended :
    (∀ (model : WebhookEndpointResourceModel) (we : StripeWebhookEndpoint),
      (WebhookEndpointResource.populateModel stdConverters model we []).1.apiVersion
          = StringNullIfEmpty we.apiVersion ∧
      (WebhookEndpointResource.populateModel stdConverters model we []).1.application
          = StringNullIfEmpty we.application ∧
      (WebhookEndpointResource.populateModel stdConverters model we []).1.description
          = StringNullIfEmpty we.description ∧
      ((WebhookEndpointResource.populateModel stdConverters model we []).1.disabled
          = TFBool.value true ∨
        (WebhookEndpointResource.populateModel stdConverters model we []).1.disabled
          = TFBool.value false)) ∧
    (∀ (model : ProductResourceModel) (product : StripeProduct),
      (ProductResource.populateModel stdConverters model product []).1.description
          = StringNullIfEmpty product.description ∧
      (ProductResource.populateModel stdConverters model product []).1.statementDescriptor
          = StringNullIfEmpty product.statementDescriptor ∧
      (ProductResource.populateModel stdConverters model product []).1.unitLabel
          = StringNullIfEmpty product.unitLabel ∧
      (ProductResource.populateModel stdConverters model product []).1.url
          = StringNullIfEmpty product.url ∧
      (ProductResource.populateModel stdConverters model product []).1.name
          = TFString.value product.name ∧
      (ProductResource.populateModel stdConverters model product []).1.active
          = TFBool.value product.active) ∧
    (∀ (model : CouponResourceModel) (coupon : StripeCoupon),
      (CouponResource.populateModel stdConverters model coupon []).1.duration
          = StringNullIfEmpty coupon.duration ∧
      (CouponResource.populateModel stdConverters model coupon []).1.durationInMonths
          = Int64NullIfEmpty coupon.durationInMonths ∧
      (CouponResource.populateModel stdConverters model coupon []).1.maxRedemptions
          = Int64NullIfEmpty coupon.maxRedemptions ∧
      (CouponResource.populateModel stdConverters model coupon []).1.name
          = StringNullIfEmpty coupon.name ∧
      (CouponResource.populateModel stdConverters model coupon []).1.percentOff
          = Float64NullIfEmpty coupon.percentOff ∧
      (CouponResource.populateModel stdConverters model coupon []).1.redeemBy
          = Int64NullIfEmpty coupon.redeemBy) ∧
    (∀ (model : PriceResourceModel) (price : StripePrice),
      (PriceResource.populateModel model price).lookupKey = TFString.value price.lookupKey ∧
      (PriceResource.populateModel model price).nickname = TFString.value price.nickname ∧
      (PriceResource.populateModel model price).unitAmount = TFInt64.value price.unitAmount ∧
      (PriceResource.populateModel model price).unitAmountDecimal
          = TFFloat64.value price.unitAmountDecimal) ∧
    (∀ s : String, (s = "" → StringNullIfEmpty s = TFString.null) ∧
      (s ≠ "" → StringNullIfEmpty s = TFString.value s)) ∧
    (∀ i : Int, (i = 0 → Int64NullIfEmpty i = TFInt64.null) ∧
      (i ≠ 0 → Int64NullIfEmpty i = TFInt64.value i)) ∧
    (∀ q : Rat, (q = 0 → Float64NullIfEmpty q = TFFloat64.null) ∧
      (q ≠ 0 → Float64NullIfEmpty q = TFFloat64.value q)) := by
  refine ⟨?_, ?_, ?_, ?_, ?_, ?_, ?_⟩
  · intro model we
    refine ⟨rfl, rfl, rfl, ?_⟩
    by_cases h : (we.status == "disabled") = true
    · left
      simp [WebhookEndpointResource.populateModel, stdConverters, h, Diagnostics.hasError]
    · right
      simp only [Bool.not_eq_true] at h
      simp [WebhookEndpointResource.populateModel, stdConverters, h, Diagnostics.hasError]
  · intro model product
    rcases hdp : product.defaultPriceID with _ | dp <;>
      rcases hmf : product.marketingFeatures with _ | mf <;>
        rcases hpd : product.packageDimensions with _ | pd <;>
          rcases htc : product.taxCodeID with _ | tc <;>
            refine ⟨?_, ?_, ?_, ?_, ?_, ?_⟩ <;>
              simp only [ProductResource.populateModel, stdConverters, hdp, hmf, hpd, htc] <;>
                first
                  | rfl
                  | (split <;> rfl)
  · intro model coupon
    rcases hap : coupon.appliesToProducts with _ | products <;>
      refine ⟨?_, ?_, ?_, ?_, ?_, ?_⟩ <;>
        simp only [CouponResource.populateModel, stdConverters, hap] <;> rfl
  · intro model price
    exact ⟨rfl, rfl, rfl, rfl⟩
  · intro s
    constructor
    · intro h; subst h; rfl
    · intro h; simp [StringNullIfEmpty, h]
  · intro i
    constructor
    · intro h; subst h; rfl
    · intro h; simp [Int64NullIfEmpty, h]
  · intro q
    constructor
    · intro h; subst h; rfl
    · intro h; simp [Float64NullIfEmpty, h]

/-- C1 amended witness: the helper equations at concrete inputs, through the
amended theorem. -/
theorem populate_null_normalization_amended_witness :
    StringNullIfEmpty "" = TFString.null ∧
    StringNullIfEmpty "x" = TFString.value "x" ∧
    Int64NullIfEmpty 0 = TFInt64.null ∧
    Float64NullIfEmpty 0 = TFFloat64.null :=
  ⟨(populate_null_normalization_amended.2.2.2.2.1 "").1 rfl,
    (populate_null_normalization_amended.2.2.2.2.1 "x").2 (by decide),
    (populate_null_normalization_amended.2.2.2.2.2.1 0).1 rfl,
    (populate_null_normalization_amended.2.2.2.2.2.2 0).1 rfl⟩

/-- C8: the Product populate sets package dimensions to a concrete object
exactly when the remote nested struct is present and all four numeric
sub-fields are non-zero; a missing struct, or any single zero sub-field,
collapses the whole nested object to Null. -/
theorem productPopulate_packageDimensions_all_or_nothing
    (model : ProductResourceModel) (product : StripeProduct) :
    (∀ pd, product.packageDimensions = some pd →
      ((pd.height ≠ 0 ∧ pd.length ≠ 0 ∧ pd.weight ≠ 0 ∧ pd.width ≠ 0) →
        (ProductResource.populateModel stdConverters model product []).1.packageDimensions
          = TFObject.value
              { height := TFFloat64.value pd.height, length := TFFloat64.value pd.length,
                weight := TFFloat64.value pd.weight, width := TFFloat64.value pd.width }) ∧
      ((pd.height = 0 ∨ pd.length = 0 ∨ pd.weight = 0 ∨ pd.width = 0) →
        (ProductResource.populateModel stdConverters model product []).1.packageDimensions
          = TFObject.null)) ∧
    (product.packageDimensions = none →
      (ProductResource.populateModel stdConverters model product []).1.packageDimensions
        = TFObject.null) := by
  constructor
  · intro pd hpd
    constructor
    · rintro ⟨h1, h2, h3, h4⟩
      rcases hmf : product.marketingFeatures with _ | mf <;>
        rcases htc : product.taxCodeID with _ | tc <;>
          simp only [ProductResource.populateModel, stdConverters, hpd, hmf, htc] <;>
            simp [h1, h2, h3, h4, Diagnostics.hasError]
    · intro h
      rcases h with h | h | h | h <;>
        rcases hmf : product.marketingFeatures with _ | mf <;>
          rcases htc : product.taxCodeID with _ | tc <;>
            simp only [ProductResource.populateModel, stdConverters, hpd, hmf, htc] <;>
              simp [h, Diagnostics.hasError]
  · intro hpd
    rcases hmf : product.marketingFeatures with _ | mf <;>
      rcases htc : product.taxCodeID with _ | tc <;>
        simp only [ProductResource.populateModel, stdConverters, hpd, hmf, htc] <;>
          simp [Diagnostics.hasError]

/-- A remote product whose package dimensions have a zero height and the
other three sub-fields non-zero. -/
def c8Product : StripeProduct :=
  { name := "p",
    packageDimensions := some { height := 0, length := 2, weight := 3, width := 4 } }

/-- C8 witness: the theorem applied to the zero-height product collapses the
nested object to Null. -/
theorem productPopulate_packageDimensions_all_or_nothing_witness :
    (ProductResource.populateModel stdConverters {} c8Product []).1.packageDimensions
      = TFObject.null :=
  ((productPopulate_packageDimensions_all_or_nothing {} c8Product).1
      { height := 0, length := 2, weight := 3, width := 4 } rfl).2 (Or.inl rfl)

/-- A webhook endpoint state model with no unknown attribute values. -/
def WebhookEndpointResourceModel.hasUnknown (m : WebhookEndpointResourceModel) : Bool :=
  m.id.isUnknown || m.apiVersion.isUnknown || m.application.isUnknown ||
    m.description.isUnknown || m.disabled.isUnknown || m.enabledEvents.isUnknown ||
    m.metadata.isUnknown || m.secret.isUnknown || m.url.isUnknown

/-- A product state model with no unknown attribute values. -/
def ProductResourceModel.hasUnknown (m : ProductResourceModel) : Bool :=
  m.id.isUnknown || m.active.isUnknown || m.defaultPrice.isUnknown ||
    m.description.isUnknown || m.images.isUnknown || m.marketingFeatures.isUnknown ||
    m.metadata.isUnknown || m.name.isUnknown || m.packageDimensions.isUnknown ||
    m.shippable.isUnknown || m.statementDescriptor.isUnknown || m.taxCode.isUnknown ||
    m.unitLabel.isUnknown || m.url.isUnknown

/-- A coupon state model with no unknown attribute values. -/
def CouponResourceModel.hasUnknown (m : CouponResourceModel) : Bool :=
  m.id.isUnknown || m.appliesTo.isUnknown || m.currencyOptions.isUnknown ||
    m.duration.isUnknown || m.durationInMonths.isUnknown || m.maxRedemptions.isUnknown ||
    m.metadata.isUnknown || m.name.isUnknown || m.percentOff.isUnknown ||
    m.redeemBy.isUnknown

/-- C3: for each resource, diffing a state against itself produces the empty
change set: no scalar pointer, no metadata map, no list replacement, no
nested object params, no per currency map. -/
theorem buildUpdateParams_noop_diff
    (ws : WebhookEndpointResourceModel) (ps : ProductResourceModel)
    (cs : CouponResourceModel)
    (hwu : ws.hasUnknown = false) (hwm : ws.metadata.wf)
    (hpu : ps.hasUnknown = false) (hpm : ps.metadata.wf)
    (hcu : cs.hasUnknown = false) (hcm : cs.metadata.wf) (hco : cs.currencyOptions.wf) :
    WebhookEndpointResource.buildUpdateParams ws ws = {} ∧
    (ProductResource.buildUpdateParams ps ps []).1 = {} ∧
    (CouponResource.buildUpdateParams cs cs []).1 = {} := by
  refine ⟨?_, ?_, ?_⟩
  · unfold WebhookEndpointResource.buildUpdateParams
    simp [tfStringEqual_self, tfBoolEqual_self, tfListEqual_self,
      tfMapEqual_self _ hwm]
  · unfold ProductResource.buildUpdateParams
    simp [tfStringEqual_self, tfBoolEqual_self, tfListEqual_self,
      tfObjectEqual_self, tfMapEqual_self _ hpm]
  · unfold CouponResource.buildUpdateParams
    simp [tfStringEqual_self, tfMapEqual_self _ hcm, tfMapEqual_self _ hco]

/-- C3 witness: the theorem applied to the all-null models. -/
theorem buildUpdateParams_noop_diff_witness :
    WebhookEndpointResource.buildUpdateParams {} {} = {} ∧
    (ProductResource.buildUpdateParams {} {} []).1 = {} ∧
    (CouponResource.buildUpdateParams {} {} []).1 = {} :=
  buildUpdateParams_noop_diff {} {} {} rfl trivial rfl trivial rfl trivial trivial

/-- A lookup misses exactly when the key is absent. -/
theorem entriesLookup_eq_none {α} (l : List (String × α)) (k : String) :
    entriesLookup l k = none ↔ k ∉ entriesKeys l := by
  unfold entriesLookup entriesKeys
  rw [Option.map_eq_none', List.find?_eq_none]
  constructor
  · intro h hk
    rcases List.mem_map.mp hk with ⟨p, hp, hpk⟩
    exact (h p hp) (by simp [hpk])
  · intro h p hp
    intro hb
    have hpk : p.1 = k := by simpa using hb
    exact h (by
      rw [← hpk]
      exact List.mem_map_of_mem (fun p => p.1) hp)

/-- The combined effect on a map-valued params field of the two metadata
diffing loops: every plan entry with its plan value, then every state key
absent from the plan with the empty clear sentinel.  This is shared by the
webhook endpoint, product and coupon update builders, which only differ in
the params record the loops thread. -/
theorem metadata_diff_folds {σ : Type _} (mp : σ → Option (List (String × String)))
    (stepAdd : σ → (String × TFString) → σ) (stepClear : σ → (String × TFString) → σ)
    (pm sm : List (String × TFString)) (s : σ)
    (hadd : ∀ s a, mp (stepAdd s a) = some (goMapSet ((mp s).getD []) a.1 a.2.valueString))
    (hclear : ∀ s a, mp (stepClear s a) =
      if (entriesLookup pm a.1).isNone then some (goMapSet ((mp s).getD []) a.1 "") else mp s)
    (hmp : mp s = none)
    (hpmnd : (entriesKeys pm).Nodup) (hsmnd : (entriesKeys sm).Nodup)
    (hneq : entriesEqual pm sm = false) :
    mp (List.foldl stepClear (List.foldl stepAdd s pm) sm) =
      some (pm.map (fun p => (p.1, p.2.valueString)) ++
        (sm.filter (fun p => (entriesLookup pm p.1).isNone)).map (fun p => (p.1, ""))) := by
  have hstep1 : ∀ (t : σ) (a : String × TFString), mp (stepAdd t a) =
      if (fun _ : String × TFString => true) a then
        some (goMapSet ((mp t).getD []) ((fun p : String × TFString => p.1) a)
          ((fun p : String × TFString => p.2.valueString) a))
      else mp t := by
    intro t a
    rw [hadd]
    rfl
  have hstep2 : ∀ (t : σ) (a : String × TFString), mp (stepClear t a) =
      if (fun p : String × TFString => (entriesLookup pm p.1).isNone) a then
        some (goMapSet ((mp t).getD []) ((fun p : String × TFString => p.1) a)
          ((fun _ : String × TFString => "") a))
      else mp t := by
    intro t a
    rw [hclear]
  have h1getD := foldl_map_field_getD mp stepAdd (fun _ => true) (fun p => p.1)
    (fun p => p.2.valueString) hstep1 pm s
    (by
      intro a _ _
      rw [hmp]
      simp [entriesKeys])
    (by simpa [entriesKeys] using hpmnd)
  have h1isSome := foldl_map_field_isSome mp stepAdd (fun _ => true) (fun p => p.1)
    (fun p => p.2.valueString) hstep1 pm s
  rw [hmp] at h1getD h1isSome
  simp only [Option.getD_none, List.nil_append, List.filter_true] at h1getD
  simp only [Option.isSome_none, Bool.false_or] at h1isSome
  set s1 := List.foldl stepAdd s pm with hs1
  have hkeys1 : entriesKeys ((mp s1).getD []) = entriesKeys pm := by
    rw [h1getD]
    simp [entriesKeys]
  have h2getD := foldl_map_field_getD mp stepClear
    (fun p => (entriesLookup pm p.1).isNone) (fun p => p.1) (fun _ => "") hstep2 sm s1
    (by
      intro a _ hc
      rw [hkeys1]
      exact (entriesLookup_eq_none pm a.1).mp (Option.isNone_iff_eq_none.mp hc))
    (by
      have hsub : ((sm.filter (fun p => (entriesLookup pm p.1).isNone)).map
          (fun p : String × TFString => p.1)).Sublist (sm.map (fun p => p.1)) :=
        List.Sublist.map _ (List.filter_sublist sm)
      exact (by simpa [entriesKeys] using hsmnd : (sm.map (fun p : String × TFString => p.1)).Nodup).sublist hsub)
  have h2isSome := foldl_map_field_isSome mp stepClear
    (fun p => (entriesLookup pm p.1).isNone) (fun p => p.1) (fun _ => "") hstep2 sm s1
  rw [h1getD] at h2getD
  rw [h1isSome] at h2isSome
  have hnonempty : (pm.map (fun p => (p.1, p.2.valueString)) ++
      (sm.filter (fun p => (entriesLookup pm p.1).isNone)).map (fun p => (p.1, ""))) ≠ [] ∨
      (mp (List.foldl stepClear s1 sm)).isSome = true := by
    by_cases hpm : pm = []
    · subst hpm
      by_cases hsm : sm = []
      · subst hsm
        simp [entriesEqual] at hneq
      · right
        rw [h2isSome]
        rcases List.exists_mem_of_ne_nil sm hsm with ⟨p, hp⟩
        have hlk : (entriesLookup ([] : List (String × TFString)) p.1).isNone = true := by
          simp [entriesLookup]
        simp only [List.any_eq_true, Bool.or_eq_true]
        right
        exact ⟨p, hp, hlk⟩
    · right
      rw [h2isSome]
      rcases List.exists_mem_of_ne_nil pm hpm with ⟨p, hp⟩
      simp only [List.any_eq_true, Bool.or_eq_true]
      left
      exact ⟨p, hp, trivial⟩
  rcases hnonempty with hne | hsome
  · cases hmpf : mp (List.foldl stepClear s1 sm) with
    | none =>
      rw [hmpf] at h2getD
      simp only [Option.getD_none] at h2getD
      exact absurd h2getD.symm hne
    | some x =>
      rw [hmpf] at h2getD
      simp only [Option.getD_some] at h2getD
      rw [h2getD]
  · cases hmpf : mp (List.foldl stepClear s1 sm) with
    | none => rw [hmpf] at hsome; simp at hsome
    | some x =>
      rw [hmpf] at h2getD
      simp only [Option.getD_some] at h2getD
      rw [h2getD]

/-! ## Effect of the named loop bodies on the params fields -/

theorem webhookAddMetadataStep_metadata (s : WebhookEndpointParams) (a : String × TFString) :
    (webhookAddMetadataStep s a).metadata =
      some (goMapSet (s.metadata.getD []) a.1 a.2.valueString) := rfl

theorem webhookClearMetadataStep_metadata (pm : List (String × TFString))
    (s : WebhookEndpointParams) (a : String × TFString) :
    (webhookClearMetadataStep pm s a).metadata =
      if (entriesLookup pm a.1).isNone then some (goMapSet (s.metadata.getD []) a.1 "")
      else s.metadata := by
  unfold webhookClearMetadataStep
  split <;> rfl

theorem foldl_webhookAdd_description (l : List (String × TFString)) (P : WebhookEndpointParams) :
    (List.foldl webhookAddMetadataStep P l).description = P.description := by
  apply foldl_proj_invariant (fun p : WebhookEndpointParams => p.description)
  intro s a
  rfl

theorem foldl_webhookClear_description (pm l : List (String × TFString))
    (P : WebhookEndpointParams) :
    (List.foldl (webhookClearMetadataStep pm) P l).description = P.description := by
  apply foldl_proj_invariant (fun p : WebhookEndpointParams => p.description)
  intro s a
  unfold webhookClearMetadataStep
  split <;> rfl

theorem productAddMetadataStep_metadata (s : ProductParams) (a : String × TFString) :
    (productAddMetadataStep s a).metadata =
      some (goMapSet (s.metadata.getD []) a.1 a.2.valueString) := rfl

theorem productClearMetadataStep_metadata (pm : List (String × TFString))
    (s : ProductParams) (a : String × TFString) :
    (productClearMetadataStep pm s a).metadata =
      if (entriesLookup pm a.1).isNone then some (goMapSet (s.metadata.getD []) a.1 "")
      else s.metadata := by
  unfold productClearMetadataStep
  split <;> rfl

theorem foldl_productMarketing_description (l : List TFString) (P : ProductParams) :
    (List.foldl productMarketingFeatureStep P l).description = P.description := by
  apply foldl_proj_invariant (fun p : ProductParams => p.description)
  intro s a
  rfl

theorem foldl_productAdd_description (l : List (String × TFString)) (P : ProductParams) :
    (List.foldl productAddMetadataStep P l).description = P.description := by
  apply foldl_proj_invariant (fun p : ProductParams => p.description)
  intro s a
  rfl

theorem foldl_productClear_description (pm l : List (String × TFString)) (P : ProductParams) :
    (List.foldl (productClearMetadataStep pm) P l).description = P.description := by
  apply foldl_proj_invariant (fun p : ProductParams => p.description)
  intro s a
  unfold productClearMetadataStep
  split <;> rfl

theorem foldl_productMarketing_metadata (l : List TFString) (P : ProductParams) :
    (List.foldl productMarketingFeatureStep P l).metadata = P.metadata := by
  apply foldl_proj_invariant (fun p : ProductParams => p.metadata)
  intro s a
  rfl

theorem couponAddMetadataStep_metadata (s : CouponParams) (a : String × TFString) :
    (couponAddMetadataStep s a).metadata =
      some (goMapSet (s.metadata.getD []) a.1 a.2.valueString) := rfl

theorem couponClearMetadataStep_metadata (pm : List (String × TFString))
    (s : CouponParams) (a : String × TFString) :
    (couponClearMetadataStep pm s a).metadata =
      if (entriesLookup pm a.1).isNone then some (goMapSet (s.metadata.getD []) a.1 "")
      else s.metadata := by
  unfold couponClearMetadataStep
  split <;> rfl

theorem foldl_couponUpdateCurrency_metadata
    (ss : List (String × CouponCurrencyOptionsModel))
    (l : List (String × CouponCurrencyOptionsModel)) (P : CouponParams) :
    (List.foldl (couponUpdateCurrencyOptionStep ss) P l).metadata = P.metadata := by
  apply foldl_proj_invariant (fun p : CouponParams => p.metadata)
  intro s a
  unfold couponUpdateCurrencyOptionStep
  split <;> rfl

theorem foldl_couponAdd_currencyOptions (l : List (String × TFString)) (P : CouponParams) :
    (List.foldl couponAddMetadataStep P l).currencyOptions = P.currencyOptions := by
  apply foldl_proj_invariant (fun p : CouponParams => p.currencyOptions)
  intro s a
  rfl

theorem foldl_couponAdd_amountOff (l : List (String × TFString)) (P : CouponParams) :
    (List.foldl couponAddMetadataStep P l).amountOff = P.amountOff := by
  apply foldl_proj_invariant (fun p : CouponParams => p.amountOff)
  intro s a
  rfl

theorem foldl_couponAdd_currency (l : List (String × TFString)) (P : CouponParams) :
    (List.foldl couponAddMetadataStep P l).currency = P.currency := by
  apply foldl_proj_invariant (fun p : CouponParams => p.currency)
  intro s a
  rfl

theorem foldl_couponClear_currencyOptions (pm l : List (String × TFString)) (P : CouponParams) :
    (List.foldl (couponClearMetadataStep pm) P l).currencyOptions = P.currencyOptions := by
  apply foldl_proj_invariant (fun p : CouponParams => p.currencyOptions)
  intro s a
  unfold couponClearMetadataStep
  split <;> rfl

theorem foldl_couponClear_amountOff (pm l : List (String × TFString)) (P : CouponParams) :
    (List.foldl (couponClearMetadataStep pm) P l).amountOff = P.amountOff := by
  apply foldl_proj_invariant (fun p : CouponParams => p.amountOff)
  intro s a
  unfold couponClearMetadataStep
  split <;> rfl

theorem foldl_couponClear_currency (pm l : List (String × TFString)) (P : CouponParams) :
    (List.foldl (couponClearMetadataStep pm) P l).currency = P.currency := by
  apply foldl_proj_invariant (fun p : CouponParams => p.currency)
  intro s a
  unfold couponClearMetadataStep
  split <;> rfl

theorem couponUpdateCurrencyOptionStep_currencyOptions
    (ss : List (String × CouponCurrencyOptionsModel)) (s : CouponParams)
    (a : String × CouponCurrencyOptionsModel) :
    (couponUpdateCurrencyOptionStep ss s a).currencyOptions =
      if (entriesLookup ss a.1).isNone then
        some (goMapSet (s.currencyOptions.getD []) a.1
          { amountOff := a.2.amountOff.valueInt64Pointer })
      else s.currencyOptions := by
  unfold couponUpdateCurrencyOptionStep
  split <;> rfl

theorem foldl_couponUpdateCurrency_amountOff
    (ss l : List (String × CouponCurrencyOptionsModel)) (P : CouponParams) :
    (List.foldl (couponUpdateCurrencyOptionStep ss) P l).amountOff = P.amountOff := by
  apply foldl_proj_invariant (fun p : CouponParams => p.amountOff)
  intro s a
  unfold couponUpdateCurrencyOptionStep
  split <;> rfl

theorem foldl_couponUpdateCurrency_currency
    (ss l : List (String × CouponCurrencyOptionsModel)) (P : CouponParams) :
    (List.foldl (couponUpdateCurrencyOptionStep ss) P l).currency = P.currency := by
  apply foldl_proj_invariant (fun p : CouponParams => p.currency)
  intro s a
  unfold couponUpdateCurrencyOptionStep
  split <;> rfl

theorem couponCreateCurrencyOptionStep_currencyOptions (s : CouponParams)
    (a : String × CouponCurrencyOptionsModel) :
    (couponCreateCurrencyOptionStep s a).currencyOptions =
      if !a.2.topLevel.valueBool then
        some (goMapSet (s.currencyOptions.getD []) a.1
          { amountOff := a.2.amountOff.valueInt64Pointer })
      else s.currencyOptions := by
  unfold couponCreateCurrencyOptionStep
  by_cases h : a.2.topLevel.valueBool = true <;> simp [h]

theorem couponCreateCurrencyOptionStep_topPair (s : CouponParams)
    (a : String × CouponCurrencyOptionsModel) :
    ((couponCreateCurrencyOptionStep s a).amountOff,
      (couponCreateCurrencyOptionStep s a).currency) =
      if a.2.topLevel.valueBool then (a.2.amountOff.valueInt64Pointer, some a.1)
      else (s.amountOff, s.currency) := by
  unfold couponCreateCurrencyOptionStep
  split <;> rfl

/-- The metadata field produced by the two webhook metadata loops. -/
theorem webhookUpdate_metadata_folds (P0 : WebhookEndpointParams)
    (pm sm : List (String × TFString)) (hm : P0.metadata = none)
    (hpmnd : (entriesKeys pm).Nodup) (hsmnd : (entriesKeys sm).Nodup)
    (hneq : entriesEqual pm sm = false) :
    (List.foldl (webhookClearMetadataStep pm)
        (List.foldl webhookAddMetadataStep P0 pm) sm).metadata =
      some (pm.map (fun p => (p.1, p.2.valueString)) ++
        (sm.filter (fun p => (entriesLookup pm p.1).isNone)).map (fun p => (p.1, ""))) :=
  metadata_diff_folds (fun p : WebhookEndpointParams => p.metadata)
    webhookAddMetadataStep (webhookClearMetadataStep pm) pm sm P0
    webhookAddMetadataStep_metadata (webhookClearMetadataStep_metadata pm)
    hm hpmnd hsmnd hneq

/-- The metadata field produced by the two product metadata loops. -/
theorem productUpdate_metadata_folds (P0 : ProductParams)
    (pm sm : List (String × TFString)) (hm : P0.metadata = none)
    (hpmnd : (entriesKeys pm).Nodup) (hsmnd : (entriesKeys sm).Nodup)
    (hneq : entriesEqual pm sm = false) :
    (List.foldl (productClearMetadataStep pm)
        (List.foldl productAddMetadataStep P0 pm) sm).metadata =
      some (pm.map (fun p => (p.1, p.2.valueString)) ++
        (sm.filter (fun p => (entriesLookup pm p.1).isNone)).map (fun p => (p.1, ""))) :=
  metadata_diff_folds (fun p : ProductParams => p.metadata)
    productAddMetadataStep (productClearMetadataStep pm) pm sm P0
    productAddMetadataStep_metadata (productClearMetadataStep_metadata pm)
    hm hpmnd hsmnd hneq

/-- The metadata field produced by the two coupon metadata loops. -/
theorem couponUpdate_metadata_folds (P0 : CouponParams)
    (pm sm : List (String × TFString)) (hm : P0.metadata = none)
    (hpmnd : (entriesKeys pm).Nodup) (hsmnd : (entriesKeys sm).Nodup)
    (hneq : entriesEqual pm sm = false) :
    (List.foldl (couponClearMetadataStep pm)
        (List.foldl couponAddMetadataStep P0 pm) sm).metadata =
      some (pm.map (fun p => (p.1, p.2.valueString)) ++
        (sm.filter (fun p => (entriesLookup pm p.1).isNone)).map (fun p => (p.1, ""))) :=
  metadata_diff_folds (fun p : CouponParams => p.metadata)
    couponAddMetadataStep (couponClearMetadataStep pm) pm sm P0
    couponAddMetadataStep_metadata (couponClearMetadataStep_metadata pm)
    hm hpmnd hsmnd hneq

/-- C6: for each resource with a metadata map, when state and plan metadata
differ, the change set metadata holds every plan key with its plan value
followed by every state key absent from the plan with the empty clear
sentinel. -/
theorem buildUpdateParams_metadata_symmetric_diff :
    (∀ (state plan : WebhookEndpointResourceModel) (sm pm : List (String × TFString)),
      state.metadata = TFMap.value sm → plan.metadata = TFMap.value pm →
      (entriesKeys sm).Nodup → (entriesKeys pm).Nodup →
      plan.metadata.equal state.metadata = false →
      (WebhookEndpointResource.buildUpdateParams state plan).metadata =
        some (pm.map (fun p => (p.1, p.2.valueString)) ++
          (sm.filter (fun p => (entriesLookup pm p.1).isNone)).map (fun p => (p.1, "")))) ∧
    (∀ (state plan : ProductResourceModel) (sm pm : List (String × TFString)),
      state.metadata = TFMap.value sm → plan.metadata = TFMap.value pm →
      (entriesKeys sm).Nodup → (entriesKeys pm).Nodup →
      plan.metadata.equal state.metadata = false →
      (ProductResource.buildUpdateParams state plan []).1.metadata =
        some (pm.map (fun p => (p.1, p.2.valueString)) ++
          (sm.filter (fun p => (entriesLookup pm p.1).isNone)).map (fun p => (p.1, "")))) ∧
    (∀ (state plan : CouponResourceModel) (sm pm : List (String × TFString)),
      state.metadata = TFMap.value sm → plan.metadata = TFMap.value pm →
      (entriesKeys sm).Nodup → (entriesKeys pm).Nodup →
      plan.metadata.equal state.metadata = false →
      (CouponResource.buildUpdateParams state plan []).1.metadata =
        some (pm.map (fun p => (p.1, p.2.valueString)) ++
          (sm.filter (fun p => (entriesLookup pm p.1).isNone)).map (fun p => (p.1, "")))) := by
  refine ⟨?_, ?_, ?_⟩
  · intro state plan sm pm hsm hpm hsmnd hpmnd hneq
    have hneq' : entriesEqual pm sm = false := by
      rw [hpm, hsm] at hneq
      simpa [TFMap.equal] using hneq
    unfold WebhookEndpointResource.buildUpdateParams
    rw [hpm, hsm]
    simp only [TFMap.equal, TFMap.elements, hneq', Bool.not_false, if_true]
    simp only [apply_ite (fun p : WebhookEndpointParams => p.metadata), ite_self]
    exact webhookUpdate_metadata_folds _ pm sm
      (by simp only [apply_ite (fun p : WebhookEndpointParams => p.metadata), ite_self])
      hpmnd hsmnd hneq'
  · intro state plan sm pm hsm hpm hsmnd hpmnd hneq
    have hneq' : entriesEqual pm sm = false := by
      rw [hpm, hsm] at hneq
      simpa [TFMap.equal] using hneq
    unfold ProductResource.buildUpdateParams
    rw [hpm, hsm]
    simp only [TFMap.equal, TFMap.elements, hneq', Bool.not_false, if_true]
    simp only [apply_ite (fun p : ProductParams => p.metadata),
      apply_ite (fun p : ProductParams × Diagnostics => p.1),
      foldl_productMarketing_metadata, ite_self]
    exact productUpdate_metadata_folds _ pm sm
      (by simp only [apply_ite (fun p : ProductParams => p.metadata),
        foldl_productMarketing_metadata, ite_self])
      hpmnd hsmnd hneq'
  · intro state plan sm pm hsm hpm hsmnd hpmnd hneq
    have hneq' : entriesEqual pm sm = false := by
      rw [hpm, hsm] at hneq
      simpa [TFMap.equal] using hneq
    unfold CouponResource.buildUpdateParams
    rw [hpm, hsm]
    simp only [TFMap.equal, TFMap.elements, hneq', Bool.not_false, if_true]
    simp only [apply_ite (fun p : CouponParams => p.metadata),
      apply_ite (fun p : CouponParams × Diagnostics => p.1),
      foldl_couponUpdateCurrency_metadata, ite_self]
    exact couponUpdate_metadata_folds _ pm sm
      (by simp only [apply_ite (fun p : CouponParams => p.metadata),
        apply_ite (fun p : CouponParams × Diagnostics => p.1),
        foldl_couponUpdateCurrency_metadata, ite_self])
      hpmnd hsmnd hneq'

/-- C6 witness: the theorem applied to coupon state metadata meta1=value1
and plan metadata meta2=value2 gives exactly meta2=value2 plus the meta1
clear entry. -/
theorem buildUpdateParams_metadata_symmetric_diff_witness :
    (CouponResource.buildUpdateParams
        { metadata := TFMap.value [("meta1", TFString.value "value1")] }
        { metadata := TFMap.value [("meta2", TFString.value "value2")] } []).1.metadata =
      some [("meta2", "value2"), ("meta1", "")] := by
  have h := buildUpdateParams_metadata_symmetric_diff.2.2
    { metadata := TFMap.value [("meta1", TFString.value "value1")] }
    { metadata := TFMap.value [("meta2", TFString.value "value2")] }
    [("meta1", TFString.value "value1")] [("meta2", TFString.value "value2")]
    rfl rfl (by decide) (by decide) (by decide)
  simpa using h

/-- C7: for the optional string scalars diffed by the update builders
(webhook endpoint description; product description, tax_code, unit_label,
url; coupon name), a changed field whose planned value is Null is sent as
the non-nil empty clear sentinel, and a changed field with a concrete
planned value is sent as that value. -/
theorem buildUpdateParams_clear_semantics :
    (∀ (state plan : WebhookEndpointResourceModel),
      plan.description.equal state.description = false →
      ((plan.description = TFString.null →
        (WebhookEndpointResource.buildUpdateParams state plan).description = some "") ∧
      (∀ v, plan.description = TFString.value v →
        (WebhookEndpointResource.buildUpdateParams state plan).description = some v))) ∧
    (∀ (state plan : ProductResourceModel),
      (plan.description.equal state.description = false →
        ((plan.description = TFString.null →
          (ProductResource.buildUpdateParams state plan []).1.description = some "") ∧
        (∀ v, plan.description = TFString.value v →
          (ProductResource.buildUpdateParams state plan []).1.description = some v))) ∧
      (plan.taxCode.equal state.taxCode = false →
        ((plan.taxCode = TFString.null →
          (ProductResource.buildUpdateParams state plan []).1.taxCode = some "") ∧
        (∀ v, plan.taxCode = TFString.value v →
          (ProductResource.buildUpdateParams state plan []).1.taxCode = some v))) ∧
      (plan.unitLabel.equal state.unitLabel = false →
        ((plan.unitLabel = TFString.null →
          (ProductResource.buildUpdateParams state plan []).1.unitLabel = some "") ∧
        (∀ v, plan.unitLabel = TFString.value v →
          (ProductResource.buildUpdateParams state plan []).1.unitLabel = some v))) ∧
      (plan.url.equal state.url = false →
        ((plan.url = TFString.null →
          (ProductResource.buildUpdateParams state plan []).1.url = some "") ∧
        (∀ v, plan.url = TFString.value v →
          (ProductResource.buildUpdateParams state plan []).1.url = some v)))) ∧
    (∀ (state plan : CouponResourceModel),
      plan.name.equal state.name = false →
      ((plan.name = TFString.null →
        (CouponResource.buildUpdateParams state plan []).1.name = some "") ∧
      (∀ v, plan.name = TFString.value v →
        (CouponResource.buildUpdateParams state plan []).1.name = some v))) := by
  refine ⟨?_, ?_, ?_⟩
  · intro state plan hneq
    constructor
    · intro hplan
      rw [hplan] at hneq
      unfold WebhookEndpointResource.buildUpdateParams
      simp only [hneq, hplan, Bool.not_false, if_true, TFString.isNull,
        apply_ite (fun p : WebhookEndpointParams => p.description),
        foldl_webhookAdd_description, foldl_webhookClear_description, ite_self]
    · intro v hplan
      rw [hplan] at hneq
      unfold WebhookEndpointResource.buildUpdateParams
      simp only [hneq, hplan, Bool.not_false, if_true, TFString.isNull,
        Bool.false_eq_true, if_false, TFString.valueStringPointer,
        apply_ite (fun p : WebhookEndpointParams => p.description),
        foldl_webhookAdd_description, foldl_webhookClear_description, ite_self]
  · intro state plan
    refine ⟨?_, ?_, ?_, ?_⟩
    · intro hneq
      constructor
      · intro hplan
        rw [hplan] at hneq
        unfold ProductResource.buildUpdateParams
        simp only [hneq, hplan, Bool.not_false, if_true, EmptyStringIfNull,
          TFString.isNull,
          apply_ite (fun p : ProductParams => p.description),
          apply_ite (fun p : ProductParams × Diagnostics => p.1),
          foldl_productMarketing_description, foldl_productAdd_description,
          foldl_productClear_description, ite_self]
      · intro v hplan
        rw [hplan] at hneq
        unfold ProductResource.buildUpdateParams
        simp only [hneq, hplan, Bool.not_false, if_true, EmptyStringIfNull,
          TFString.isNull, Bool.false_eq_true, if_false, TFString.valueStringPointer,
          apply_ite (fun p : ProductParams => p.description),
          apply_ite (fun p : ProductParams × Diagnostics => p.1),
          foldl_productMarketing_description, foldl_productAdd_description,
          foldl_productClear_description, ite_self]
    · intro hneq
      constructor
      · intro hplan
        rw [hplan] at hneq
        unfold ProductResource.buildUpdateParams
        simp only [hneq, hplan, Bool.not_false, if_true, EmptyStringIfNull,
          TFString.isNull,
          apply_ite (fun p : ProductParams => p.taxCode),
          apply_ite (fun p : ProductParams × Diagnostics => p.1), ite_self]
      · intro v hplan
        rw [hplan] at hneq
        unfold ProductResource.buildUpdateParams
        simp only [hneq, hplan, Bool.not_false, if_true, EmptyStringIfNull,
          TFString.isNull, Bool.false_eq_true, if_false, TFString.valueStringPointer,
          apply_ite (fun p : ProductParams => p.taxCode),
          apply_ite (fun p : ProductParams × Diagnostics => p.1), ite_self]
    · intro hneq
      constructor
      · intro hplan
        rw [hplan] at hneq
        unfold ProductResource.buildUpdateParams
        simp only [hneq, hplan, Bool.not_false, if_true, EmptyStringIfNull,
          TFString.isNull,
          apply_ite (fun p : ProductParams => p.unitLabel),
          apply_ite (fun p : ProductParams × Diagnostics => p.1), ite_self]
      · intro v hplan
        rw [hplan] at hneq
        unfold ProductResource.buildUpdateParams
        simp only [hneq, hplan, Bool.not_false, if_true, EmptyStringIfNull,
          TFString.isNull, Bool.false_eq_true, if_false, TFString.valueStringPointer,
          apply_ite (fun p : ProductParams => p.unitLabel),
          apply_ite (fun p : ProductParams × Diagnostics => p.1), ite_self]
    · intro hneq
      constructor
      · intro hplan
        rw [hplan] at hneq
        unfold ProductResource.buildUpdateParams
        simp only [hneq, hplan, Bool.not_false, if_true, EmptyStringIfNull,
          TFString.isNull,
          apply_ite (fun p : ProductParams => p.url),
          apply_ite (fun p : ProductParams × Diagnostics => p.1), ite_self]
      · intro v hplan
        rw [hplan] at hneq
        unfold ProductResource.buildUpdateParams
        simp only [hneq, hplan, Bool.not_false, if_true, EmptyStringIfNull,
          TFString.isNull, Bool.false_eq_true, if_false, TFString.valueStringPointer,
          apply_ite (fun p : ProductParams => p.url),
          apply_ite (fun p : ProductParams × Diagnostics => p.1), ite_self]
  · intro state plan hneq
    constructor
    · intro hplan
      rw [hplan] at hneq
      unfold CouponResource.buildUpdateParams
      simp only [hneq, hplan, Bool.not_false, if_true, EmptyStringIfNull,
        TFString.isNull,
        apply_ite (fun p : CouponParams => p.name),
        apply_ite (fun p : CouponParams × Diagnostics => p.1), ite_self]
    · intro v hplan
      rw [hplan] at hneq
      unfold CouponResource.buildUpdateParams
      simp only [hneq, hplan, Bool.not_false, if_true, EmptyStringIfNull,
        TFString.isNull, Bool.false_eq_true, if_false, TFString.valueStringPointer,
        apply_ite (fun p : CouponParams => p.name),
        apply_ite (fun p : CouponParams × Diagnostics => p.1), ite_self]

/-- C7 witness: the theorem applied to a webhook endpoint whose state
description is the value x and whose plan description is Null yields the
clear sentinel, and to a coupon whose name changes to y yields that value. -/
theorem buildUpdateParams_clear_semantics_witness :
    (WebhookEndpointResource.buildUpdateParams
        { description := TFString.value "x" } { description := TFString.null }).description
      = some "" ∧
    (CouponResource.buildUpdateParams
        { name := TFString.value "x" } { name := TFString.value "y" } []).1.name
      = some "y" :=
  ⟨(buildUpdateParams_clear_semantics.1
      { description := TFString.value "x" } { description := TFString.null }
      (by decide)).1 rfl,
    (buildUpdateParams_clear_semantics.2.2
      { name := TFString.value "x" } { name := TFString.value "y" }
      (by decide)).2 "y" rfl⟩

/-- C4: in the coupon update diff over currency options, when state and plan
maps differ, only plan keys absent from state are emitted into the per
currency map (keys removed from state are not cleared, keys present in both
are not re-sent), and the top level AmountOff and Currency fields of the
change set stay nil. -/
theorem couponUpdate_currencyOptions_addition_only
    (state plan : CouponResourceModel)
    (ss ps : List (String × CouponCurrencyOptionsModel))
    (hss : state.currencyOptions = TFMap.value ss)
    (hps : plan.currencyOptions = TFMap.value ps)
    (hpsnd : (entriesKeys ps).Nodup)
    (hneq : plan.currencyOptions.equal state.currencyOptions = false) :
    (CouponResource.buildUpdateParams state plan []).1.currencyOptions =
      some ((ps.filter (fun p => (entriesLookup ss p.1).isNone)).map
        (fun p => (p.1,
          ({ amountOff := p.2.amountOff.valueInt64Pointer } : CouponCurrencyOptionsParams)))) ∧
    (CouponResource.buildUpdateParams state plan []).1.amountOff = none ∧
    (CouponResource.buildUpdateParams state plan []).1.currency = none := by
  rw [hps, hss] at hneq
  refine ⟨?_, ?_, ?_⟩
  · unfold CouponResource.buildUpdateParams
    rw [hps, hss]
    simp only [hneq, Bool.not_false, if_true, TFMap.elementsAs,
      apply_ite (fun p : CouponParams => p.currencyOptions),
      apply_ite (fun p : CouponParams × Diagnostics => p.1),
      foldl_couponAdd_currencyOptions, foldl_couponClear_currencyOptions, ite_self]
    exact foldl_map_field_some (fun p : CouponParams => p.currencyOptions)
      (couponUpdateCurrencyOptionStep ss)
      (fun p => (entriesLookup ss p.1).isNone) (fun p => p.1)
      (fun p => { amountOff := p.2.amountOff.valueInt64Pointer })
      (couponUpdateCurrencyOptionStep_currencyOptions ss) ps _ [] rfl
      (by intro a _ _; simp [entriesKeys])
      (by
        have hsub : ((ps.filter (fun p => (entriesLookup ss p.1).isNone)).map
            (fun p : String × CouponCurrencyOptionsModel => p.1)).Sublist
              (ps.map (fun p => p.1)) :=
          List.Sublist.map _ (List.filter_sublist ps)
        exact (by simpa [entriesKeys] using hpsnd :
          (ps.map (fun p : String × CouponCurrencyOptionsModel => p.1)).Nodup).sublist hsub)
  · unfold CouponResource.buildUpdateParams
    rw [hps, hss]
    simp only [hneq, Bool.not_false, if_true, TFMap.elementsAs,
      apply_ite (fun p : CouponParams => p.amountOff),
      apply_ite (fun p : CouponParams × Diagnostics => p.1),
      foldl_couponAdd_amountOff, foldl_couponClear_amountOff,
      foldl_couponUpdateCurrency_amountOff, ite_self]
  · unfold CouponResource.buildUpdateParams
    rw [hps, hss]
    simp only [hneq, Bool.not_false, if_true, TFMap.elementsAs,
      apply_ite (fun p : CouponParams => p.currency),
      apply_ite (fun p : CouponParams × Diagnostics => p.1),
      foldl_couponAdd_currency, foldl_couponClear_currency,
      foldl_couponUpdateCurrency_currency, ite_self]

/-- C4 witness: state usd, plan usd plus gbp yields exactly one per currency
entry gbp, with nil top level amount and currency. -/
theorem couponUpdate_currencyOptions_addition_only_witness :
    (CouponResource.buildUpdateParams
        { currencyOptions := TFMap.value
            [("usd", { amountOff := TFInt64.value 1000, topLevel := TFBool.value true })] }
        { currencyOptions := TFMap.value
            [("usd", { amountOff := TFInt64.value 1000, topLevel := TFBool.value true }),
             ("gbp", { amountOff := TFInt64.value 1000, topLevel := TFBool.value false })] }
        []).1.currencyOptions = some [("gbp", { amountOff := some 1000 })] ∧
    (CouponResource.buildUpdateParams
        { currencyOptions := TFMap.value
            [("usd", { amountOff := TFInt64.value 1000, topLevel := TFBool.value true })] }
        { currencyOptions := TFMap.value
            [("usd", { amountOff := TFInt64.value 1000, topLevel := TFBool.value true }),
             ("gbp", { amountOff := TFInt64.value 1000, topLevel := TFBool.value false })] }
        []).1.amountOff = none := by
  have h := couponUpdate_currencyOptions_addition_only
    { currencyOptions := TFMap.value
        [("usd", { amountOff := TFInt64.value 1000, topLevel := TFBool.value true })] }
    { currencyOptions := TFMap.value
        [("usd", { amountOff := TFInt64.value 1000, topLevel := TFBool.value true }),
         ("gbp", { amountOff := TFInt64.value 1000, topLevel := TFBool.value false })] }
    [("usd", { amountOff := TFInt64.value 1000, topLevel := TFBool.value true })]
    [("usd", { amountOff := TFInt64.value 1000, topLevel := TFBool.value true }),
     ("gbp", { amountOff := TFInt64.value 1000, topLevel := TFBool.value false })]
    rfl rfl (by decide) (by decide)
  refine ⟨?_, h.2.1⟩
  rw [h.1]
  decide

/-- C5: when a coupon plan has a present currency options map, the create
builder puts exactly the entries with top_level false into the per currency
map, and when exactly one entry is marked top_level true, that entry feeds
the top level AmountOff and Currency fields, Currency being its map key. -/
theorem couponCreate_topLevel_routing
    (data : CouponResourceModel) (es : List (String × CouponCurrencyOptionsModel))
    (hes : data.currencyOptions = TFMap.value es)
    (hnd : (entriesKeys es).Nodup) (k0 : String) (v0 : CouponCurrencyOptionsModel)
    (htop : es.filter (fun p => p.2.topLevel.valueBool) = [(k0, v0)]) :
    (CouponResource.buildCreateParams data []).1.currencyOptions =
      some ((es.filter (fun p => !p.2.topLevel.valueBool)).map
        (fun p => (p.1,
          ({ amountOff := p.2.amountOff.valueInt64Pointer } : CouponCurrencyOptionsParams)))) ∧
    (CouponResource.buildCreateParams data []).1.amountOff
      = v0.amountOff.valueInt64Pointer ∧
    (CouponResource.buildCreateParams data []).1.currency = some k0 := by
  refine ⟨?_, ?_, ?_⟩
  · unfold CouponResource.buildCreateParams
    rw [hes]
    simp only [TFMap.isUnknown, TFMap.isNull, TFMap.elementsAs, Bool.not_false,
      Bool.and_self, if_true,
      apply_ite (fun p : CouponParams => p.currencyOptions),
      apply_ite (fun p : CouponParams × Diagnostics => p.1),
      foldl_couponAdd_currencyOptions, ite_self]
    exact foldl_map_field_some (fun p : CouponParams => p.currencyOptions)
      couponCreateCurrencyOptionStep
      (fun p => !p.2.topLevel.valueBool) (fun p => p.1)
      (fun p => { amountOff := p.2.amountOff.valueInt64Pointer })
      couponCreateCurrencyOptionStep_currencyOptions es _ [] rfl
      (by intro a _ _; simp [entriesKeys])
      (by
        have hsub : ((es.filter (fun p => !p.2.topLevel.valueBool)).map
            (fun p : String × CouponCurrencyOptionsModel => p.1)).Sublist
              (es.map (fun p => p.1)) :=
          List.Sublist.map _ (List.filter_sublist es)
        exact (by simpa [entriesKeys] using hnd :
          (es.map (fun p : String × CouponCurrencyOptionsModel => p.1)).Nodup).sublist hsub)
  · unfold CouponResource.buildCreateParams
    rw [hes]
    simp only [TFMap.isUnknown, TFMap.isNull, TFMap.elementsAs, Bool.not_false,
      Bool.and_self, if_true,
      apply_ite (fun p : CouponParams => p.amountOff),
      apply_ite (fun p : CouponParams × Diagnostics => p.1),
      foldl_couponAdd_amountOff, ite_self]
    exact congrArg Prod.fst
      (foldl_proj_single (fun p : CouponParams => (p.amountOff, p.currency))
        couponCreateCurrencyOptionStep (fun p => p.2.topLevel.valueBool)
        (fun p => (p.2.amountOff.valueInt64Pointer, some p.1))
        couponCreateCurrencyOptionStep_topPair es _ (k0, v0) htop)
  · unfold CouponResource.buildCreateParams
    rw [hes]
    simp only [TFMap.isUnknown, TFMap.isNull, TFMap.elementsAs, Bool.not_false,
      Bool.and_self, if_true,
      apply_ite (fun p : CouponParams => p.currency),
      apply_ite (fun p : CouponParams × Diagnostics => p.1),
      foldl_couponAdd_currency, ite_self]
    exact congrArg Prod.snd
      (foldl_proj_single (fun p : CouponParams => (p.amountOff, p.currency))
        couponCreateCurrencyOptionStep (fun p => p.2.topLevel.valueBool)
        (fun p => (p.2.amountOff.valueInt64Pointer, some p.1))
        couponCreateCurrencyOptionStep_topPair es _ (k0, v0) htop)

/-- C5 witness: a plan with the single entry usd, amount 1000, top_level
true, produces AmountOff 1000, Currency usd and an empty per currency map. -/
theorem couponCreate_topLevel_routing_witness :
    (CouponResource.buildCreateParams
        { currencyOptions := TFMap.value
            [("usd", { amountOff := TFInt64.value 1000, topLevel := TFBool.value true })] }
        []).1.currencyOptions = some [] ∧
    (CouponResource.buildCreateParams
        { currencyOptions := TFMap.value
            [("usd", { amountOff := TFInt64.value 1000, topLevel := TFBool.value true })] }
        []).1.amountOff = some 1000 ∧
    (CouponResource.buildCreateParams
        { currencyOptions := TFMap.value
            [("usd", { amountOff := TFInt64.value 1000, topLevel := TFBool.value true })] }
        []).1.currency = some "usd" := by
  have h := couponCreate_topLevel_routing
    { currencyOptions := TFMap.value
        [("usd", { amountOff := TFInt64.value 1000, topLevel := TFBool.value true })] }
    [("usd", { amountOff := TFInt64.value 1000, topLevel := TFBool.value true })]
    rfl (by decide) "usd" { amountOff := TFInt64.value 1000, topLevel := TFBool.value true }
    (by decide)
  refine ⟨?_, h.2.1, h.2.2⟩
  rw [h.1]
  decide

/-- C10 witness: the theorem applied at a null prior state with planned
value true (error raised, plan unchanged) and at an existing state (no
diagnostic). -/
theorem disallowOnCreateOnValue_exact_witness :
    (disallowOnCreateOnValueModifier.PlanModifyBool true true
        (TFBool.value true)).diagnostics ≠ [] ∧
    (disallowOnCreateOnValueModifier.PlanModifyBool true false
        (TFBool.value true)).diagnostics = [] ∧
    (disallowOnCreateOnValueModifier.PlanModifyBool true true
        (TFBool.value true)).planValue = TFBool.value true :=
  ⟨((disallowOnCreateOnValue_exact true (TFBool.value true)).1).mpr ⟨rfl, rfl⟩,
    by decide,
    (disallowOnCreateOnValue_exact true (TFBool.value true)).2⟩
